import Mathlib

/-!
Shallow embedding of the ddl-lock-analyzer core (Go) in Lean 4:
the rule-based Prediction Engine (internal/predictor) and the
Foreign-Key Dependency Resolver (internal/fkresolver), followed by
theorems about the documented behaviour of both components.

Go string-alias types (Algorithm, LockLevel, RiskLevel, AlterActionType,
FKDirection) are embedded as String with the constants as definitions.
Go pointers that can be nil (for TableMeta and the tri-state *bool) are
embedded as Option. Go strings.EqualFold is embedded as ASCII
case-insensitive comparison over the ASCII character data.
-/

namespace DLA

/-- Go: meta.AlgorithmInstant. -/
def AlgorithmInstant : String := "INSTANT"

/-- Go: meta.AlgorithmInplace. -/
def AlgorithmInplace : String := "INPLACE"

/-- Go: meta.AlgorithmCopy. -/
def AlgorithmCopy : String := "COPY"

/-- Go: meta.LockNone. -/
def LockNone : String := "NONE"

/-- Go: meta.LockShared. -/
def LockShared : String := "SHARED"

/-- Go: meta.LockExclusive. -/
def LockExclusive : String := "EXCLUSIVE"

/-- Go: meta.RiskLow. -/
def RiskLow : String := "LOW"

/-- Go: meta.RiskMedium. -/
def RiskMedium : String := "MEDIUM"

/-- Go: meta.RiskHigh. -/
def RiskHigh : String := "HIGH"

/-- Go: meta.RiskCritical. -/
def RiskCritical : String := "CRITICAL"

/-- Go: meta.ActionAddColumn. -/
def ActionAddColumn : String := "ADD_COLUMN"

/-- Go: meta.ActionDropColumn. -/
def ActionDropColumn : String := "DROP_COLUMN"

/-- Go: meta.ActionModifyColumn. -/
def ActionModifyColumn : String := "MODIFY_COLUMN"

/-- Go: meta.ActionChangeColumn. -/
def ActionChangeColumn : String := "CHANGE_COLUMN"

/-- Go: meta.ActionRenameColumn. -/
def ActionRenameColumn : String := "RENAME_COLUMN"

/-- Go: meta.ActionSetDefault. -/
def ActionSetDefault : String := "ALTER_COLUMN_SET_DEFAULT"

/-- Go: meta.ActionDropDefault. -/
def ActionDropDefault : String := "ALTER_COLUMN_DROP_DEFAULT"

/-- Go: meta.ActionAddIndex. -/
def ActionAddIndex : String := "ADD_INDEX"

/-- Go: meta.ActionAddUniqueIndex. -/
def ActionAddUniqueIndex : String := "ADD_UNIQUE_INDEX"

/-- Go: meta.ActionAddFulltextIndex. -/
def ActionAddFulltextIndex : String := "ADD_FULLTEXT_INDEX"

/-- Go: meta.ActionDropIndex. -/
def ActionDropIndex : String := "DROP_INDEX"

/-- Go: meta.ActionRenameIndex. -/
def ActionRenameIndex : String := "RENAME_INDEX"

/-- Go: meta.ActionAddPrimaryKey. -/
def ActionAddPrimaryKey : String := "ADD_PRIMARY_KEY"

/-- Go: meta.ActionDropPrimaryKey. -/
def ActionDropPrimaryKey : String := "DROP_PRIMARY_KEY"

/-- Go: meta.ActionAddForeignKey. -/
def ActionAddForeignKey : String := "ADD_FOREIGN_KEY"

/-- Go: meta.ActionDropForeignKey. -/
def ActionDropForeignKey : String := "DROP_FOREIGN_KEY"

/-- Go: meta.ActionRenameTable. -/
def ActionRenameTable : String := "RENAME_TABLE"

/-- Go: meta.ActionConvertCharset. -/
def ActionConvertCharset : String := "CONVERT_CHARACTER_SET"

/-- Go: meta.ActionChangeEngine. -/
def ActionChangeEngine : String := "CHANGE_ENGINE"

/-- Go: meta.ActionChangeRowFormat. -/
def ActionChangeRowFormat : String := "CHANGE_ROW_FORMAT"

/-- Go: meta.ActionAddPartition. -/
def ActionAddPartition : String := "ADD_PARTITION"

/-- Go: meta.ActionDropPartition. -/
def ActionDropPartition : String := "DROP_PARTITION"

/-- Go: meta.ActionAddSpatialIndex. -/
def ActionAddSpatialIndex : String := "ADD_SPATIAL_INDEX"

/-- Go: meta.ActionChangeAutoIncrement. -/
def ActionChangeAutoIncrement : String := "CHANGE_AUTO_INCREMENT"

/-- Go: meta.ActionChangeKeyBlockSize. -/
def ActionChangeKeyBlockSize : String := "CHANGE_KEY_BLOCK_SIZE"

/-- Go: meta.ActionForceRebuild. -/
def ActionForceRebuild : String := "FORCE_REBUILD"

/-- Go: meta.ActionCoalescePartition. -/
def ActionCoalescePartition : String := "COALESCE_PARTITION"

/-- Go: meta.ActionReorganizePartition. -/
def ActionReorganizePartition : String := "REORGANIZE_PARTITION"

/-- Go: meta.ActionTruncatePartition. -/
def ActionTruncatePartition : String := "TRUNCATE_PARTITION"

/-- Go: meta.ActionRebuildPartition. -/
def ActionRebuildPartition : String := "REBUILD_PARTITION"

/-- Go: meta.ActionRemovePartitioning. -/
def ActionRemovePartitioning : String := "REMOVE_PARTITIONING"

/-- Go: meta.ActionPartitionBy. -/
def ActionPartitionBy : String := "PARTITION_BY"

/-- Go: meta.ActionExchangePartition. -/
def ActionExchangePartition : String := "EXCHANGE_PARTITION"

/-- Go: meta.ActionSpecifyCharset (referenced by rules_table.go; the newer
meta type declarations are absent from the sources, so the string value is
modelled from the naming convention of the surrounding constants). -/
def ActionSpecifyCharset : String := "SPECIFY_CHARACTER_SET"

/-- Go: meta.ActionSetTableStats (see ActionSpecifyCharset note). -/
def ActionSetTableStats : String := "SET_TABLE_STATS"

/-- Go: meta.ActionTableEncryption (see ActionSpecifyCharset note). -/
def ActionTableEncryption : String := "TABLE_ENCRYPTION"

/-- Go: meta.ActionCheckPartition (see ActionSpecifyCharset note). -/
def ActionCheckPartition : String := "CHECK_PARTITION"

/-- Go: meta.ActionOptimizePartition (see ActionSpecifyCharset note). -/
def ActionOptimizePartition : String := "OPTIMIZE_PARTITION"

/-- Go: meta.ActionRepairPartition (see ActionSpecifyCharset note). -/
def ActionRepairPartition : String := "REPAIR_PARTITION"

/-- Go: meta.ActionDiscardPartitionTablespace (see ActionSpecifyCharset note). -/
def ActionDiscardPartitionTablespace : String := "DISCARD_PARTITION_TABLESPACE"

/-- Go: meta.ActionImportPartitionTablespace (see ActionSpecifyCharset note). -/
def ActionImportPartitionTablespace : String := "IMPORT_PARTITION_TABLESPACE"

/-- Go: meta.ColumnMeta. Field defaults mirror Go zero values. -/
structure ColumnMeta where
  name : String := ""
  ordinalPos : Int := 0
  dataType : String := ""
  columnType : String := ""
  isNullable : Bool := false
  columnKey : String := ""
  defaultValue : String := ""
  extra : String := ""
  characterSet : String := ""
  collation : String := ""
deriving Repr, DecidableEq

/-- Go: meta.IndexMeta. -/
structure IndexMeta where
  name : String := ""
  columns : List String := []
  isUnique : Bool := false
  isPrimary : Bool := false
  indexType : String := ""
deriving Repr, DecidableEq

/-- Go: meta.ForeignKeyMeta. -/
structure ForeignKeyMeta where
  constraintName : String := ""
  sourceSchema : String := ""
  sourceTable : String := ""
  sourceColumns : List String := []
  referencedSchema : String := ""
  referencedTable : String := ""
  referencedColumns : List String := []
  onDelete : String := ""
  onUpdate : String := ""
deriving Repr, DecidableEq

/-- Go: meta.TableMeta. The fields isPartitioned and partitionType are
referenced by rules_column.go and rules_partition.go but the newer meta
type declarations are absent from the sources; they are modelled from the
spec, which lists a "partitioning flag/kind" among the snapshot fields. -/
structure TableMeta where
  schema : String := ""
  table : String := ""
  engine : String := ""
  rowCount : Int := 0
  dataLength : Int := 0
  indexLength : Int := 0
  columns : List ColumnMeta := []
  indexes : List IndexMeta := []
  foreignKeys : List ForeignKeyMeta := []
  referencedBy : List ForeignKeyMeta := []
  mysqlVersion : String := ""
  isPartitioned : Bool := false
  partitionType : String := ""
deriving Repr, DecidableEq

/-- Go: meta.ActionDetail. The tri-state *bool fields become Option Bool. -/
structure ActionDetail where
  columnName : String := ""
  oldColumnName : String := ""
  columnType : String := ""
  oldColumnType : String := ""
  isNullable : Option Bool := none
  wasNullable : Option Bool := none
  defaultValue : String := ""
  position : String := ""
  indexName : String := ""
  indexColumns : List String := []
  oldIndexName : String := ""
  constraintName : String := ""
  engine : String := ""
  charset : String := ""
  rowFormat : String := ""
  isAutoIncrement : Bool := false
  generatedType : String := ""
  refTable : String := ""
  refColumns : List String := []
deriving Repr, DecidableEq

/-- Go: meta.AlterAction. -/
structure AlterAction where
  type : String := ""
  detail : ActionDetail := {}
deriving Repr, DecidableEq

/-- ASCII lower-casing of one character. -/
def lowerChar (c : Char) : Char :=
  if 65 ≤ c.toNat ∧ c.toNat ≤ 90 then Char.ofNat (c.toNat + 32) else c

/-- ASCII upper-casing of one character. -/
def upperChar (c : Char) : Char :=
  if 97 ≤ c.toNat ∧ c.toNat ≤ 122 then Char.ofNat (c.toNat - 32) else c

/-- Go strings.ToLower, for the ASCII strings this code base handles. -/
def asciiLower (s : String) : String :=
  String.mk (s.data.map lowerChar)

/-- Go strings.ToUpper, for the ASCII strings this code base handles. -/
def asciiUpper (s : String) : String :=
  String.mk (s.data.map upperChar)

/-- Go strings.HasPrefix. -/
def startsWithStr (s p : String) : Bool :=
  p.data.isPrefixOf s.data

/-- Go strings.EqualFold, for the ASCII strings this code base compares. -/
def eqFold (s t : String) : Bool :=
  asciiLower s == asciiLower t

/-- Whether the second list occurs as a contiguous sublist of the first
(Go strings.Contains on the underlying characters). -/
def hasSubList (needle : List Char) : List Char → Bool
  | [] => needle.isEmpty
  | c :: t => needle.isPrefixOf (c :: t) || hasSubList needle t

/-- Go strings.Contains. -/
def containsSub (s sub : String) : Bool :=
  hasSubList sub.data s.data

/-- Numeric value of a decimal digit run (used by extractVarcharLength). -/
def digitsToNat (l : List Char) : Nat :=
  l.foldl (fun acc c => acc * 10 + (c.toNat - 48)) 0

/-- Strip an expected literal from the head of a character list, returning
the remainder on success. -/
def dropLiteral : List Char → List Char → Option (List Char)
  | [], l => some l
  | _ :: _, [] => none
  | p :: ps, c :: cs => if c = p then dropLiteral ps cs else none

/-- Attempt to match the regex varchar\((\d+)\) at the head of a lowered
character list: the literal "varchar(", one or more digits, then ')'. -/
def varcharAt (l : List Char) : Option Nat :=
  match dropLiteral "varchar(".data l with
  | none => none
  | some rest =>
    let ds := rest.takeWhile Char.isDigit
    let after := rest.drop ds.length
    if ds = [] then none
    else match after with
      | ')' :: _ => some (digitsToNat ds)
      | _ => none

/-- Scan for the first match of varchar\((\d+)\) in a lowered character
list (Go regexp FindStringSubmatch scans every start position). -/
def varcharScan : List Char → Option Nat
  | [] => none
  | c :: t =>
    match varcharAt (c :: t) with
    | some n => some n
    | none => varcharScan t

/-- Go predictor.extractVarcharLength: the numeric length from a
VARCHAR(N) type string, or -1 when the type is not VARCHAR. The (?i)
case-insensitive regex is embedded by scanning the lowered string. -/
def extractVarcharLength (colType : String) : Int :=
  match varcharScan (asciiLower colType).data with
  | some n => Int.ofNat n
  | none => -1

/-- Go predictor.findColumn: first column of the snapshot whose name
matches case-insensitively, none when the snapshot is absent. -/
def findColumn (tm : Option TableMeta) (name : String) : Option ColumnMeta :=
  match tm with
  | none => none
  | some m => m.columns.find? fun col => eqFold col.name name

/-- Go predictor.isGeneratedColumn. -/
def isGeneratedColumn (col : ColumnMeta) : Bool :=
  containsSub (asciiUpper col.extra) "GENERATED"

/-- Go predictor.isStoredGenerated. -/
def isStoredGenerated (col : ColumnMeta) : Bool :=
  containsSub (asciiUpper col.extra) "STORED GENERATED"

/-- Go predictor.isVirtualGenerated. -/
def isVirtualGenerated (col : ColumnMeta) : Bool :=
  containsSub (asciiUpper col.extra) "VIRTUAL GENERATED"

/-- Go predictor.isNullablePtr: a nil pointer counts as nullable. -/
def isNullablePtr : Option Bool → Bool
  | none => true
  | some b => b

/-- Go predictor.isHashOrKeyPartition. -/
def isHashOrKeyPartition (partitionType : String) : Bool :=
  let pt := asciiUpper partitionType
  pt == "HASH" || pt == "KEY" || pt == "LINEAR HASH" || pt == "LINEAR KEY"

/-- Go predictor.hasFulltextIndex. -/
def hasFulltextIndex (tm : Option TableMeta) : Bool :=
  match tm with
  | none => false
  | some m => m.indexes.any fun idx => eqFold idx.indexType "FULLTEXT"

/-- Go predictor.isColumnReferencedByFK. -/
def isColumnReferencedByFK (colName : String) (tm : Option TableMeta) : Bool :=
  match tm with
  | none => false
  | some m => m.referencedBy.any fun fk =>
      fk.referencedColumns.any fun refCol => eqFold refCol colName

/-- Go predictor.isEnumOrSetType. -/
def isEnumOrSetType (colType : String) : Bool :=
  let upper := asciiUpper colType
  startsWithStr upper "ENUM" || startsWithStr upper "SET"

/-- Go predictor.alwaysMatch. -/
def alwaysMatch (_ : AlterAction) (_ : Option TableMeta) : Bool :=
  true

/-- Go predictor.PredictionRule. -/
structure PredictionRule where
  actionType : String
  description : String
  condition : AlterAction → Option TableMeta → Bool
  algorithm : String
  lock : String
  tableRebuild : Bool
  notes : List String := []
  warnings : List String := []

/-- Go predictor.columnRules (rules_column.go): ADD/DROP/RENAME COLUMN
and SET/DROP DEFAULT rules, in declaration order. -/
def columnRules : List PredictionRule :=
  [ { actionType := ActionAddColumn
      description := "ADD COLUMN (auto-increment)"
      condition := fun a _ => a.detail.isAutoIncrement
      algorithm := AlgorithmInplace
      lock := LockShared
      tableRebuild := true
      notes := ["Auto-increment column requires ALGORITHM=INPLACE with LOCK=SHARED"]
      warnings := ["SHARED lock — DML writes blocked during column addition",
                   "Table rebuild required — INPLACE ADD COLUMN with auto-increment"] },
    { actionType := ActionAddColumn
      description := "ADD COLUMN (STORED generated)"
      condition := fun a _ => a.detail.generatedType == "STORED"
      algorithm := AlgorithmCopy
      lock := LockShared
      tableRebuild := true
      warnings := ["STORED generated column requires ALGORITHM=COPY",
                   "SHARED lock — DML writes blocked during operation",
                   "Table rebuild required — server must evaluate expression for each row"] },
    { actionType := ActionAddColumn
      description := "ADD COLUMN (VIRTUAL generated, partitioned table)"
      condition := fun a tm =>
        a.detail.generatedType == "VIRTUAL" &&
          (match tm with | some m => m.isPartitioned | none => false)
      algorithm := AlgorithmCopy
      lock := LockShared
      tableRebuild := true
      warnings := ["VIRTUAL generated column on partitioned table requires ALGORITHM=COPY",
                   "SHARED lock — DML writes blocked during operation",
                   "Table rebuild required"] },
    { actionType := ActionAddColumn
      description := "ADD COLUMN (VIRTUAL generated)"
      condition := fun a _ => a.detail.generatedType == "VIRTUAL"
      algorithm := AlgorithmInstant
      lock := LockNone
      tableRebuild := false
      notes := ["VIRTUAL generated column — INSTANT for non-partitioned tables (MySQL 8.0+)"] },
    { actionType := ActionAddColumn
      description := "ADD COLUMN (trailing, NULLABLE)"
      condition := fun a _ => a.detail.position == "" && isNullablePtr a.detail.isNullable
      algorithm := AlgorithmInstant
      lock := LockNone
      tableRebuild := false
      notes := ["INSTANT algorithm available (MySQL 8.0.12+)", "No table rebuild required",
                "DML operations are not blocked"] },
    { actionType := ActionAddColumn
      description := "ADD COLUMN (non-trailing, NULLABLE)"
      condition := fun a _ => a.detail.position != "" && isNullablePtr a.detail.isNullable
      algorithm := AlgorithmInstant
      lock := LockNone
      tableRebuild := false
      notes := ["INSTANT algorithm available (MySQL 8.0.29+)", "No table rebuild required"] },
    { actionType := ActionAddColumn
      description := "ADD COLUMN (trailing, NOT NULL)"
      condition := fun a _ => a.detail.position == "" && !isNullablePtr a.detail.isNullable
      algorithm := AlgorithmInstant
      lock := LockNone
      tableRebuild := false
      notes := ["INSTANT algorithm available (MySQL 8.0.12+)",
                "NOT NULL column requires a DEFAULT value (explicit or implicit)"] },
    { actionType := ActionAddColumn
      description := "ADD COLUMN (non-trailing, NOT NULL)"
      condition := fun a _ => a.detail.position != "" && !isNullablePtr a.detail.isNullable
      algorithm := AlgorithmInstant
      lock := LockNone
      tableRebuild := false
      notes := ["INSTANT algorithm available (MySQL 8.0.29+)",
                "NOT NULL column requires a DEFAULT value (explicit or implicit)"] },
    { actionType := ActionDropColumn
      description := "DROP COLUMN (STORED generated)"
      condition := fun a tm =>
        match findColumn tm a.detail.columnName with
        | some col => isStoredGenerated col
        | none => false
      algorithm := AlgorithmInplace
      lock := LockNone
      tableRebuild := true
      notes := ["Dropping STORED generated column requires table rebuild"]
      warnings := ["Table rebuild required — may take significant time for large tables"] },
    { actionType := ActionDropColumn
      description := "DROP COLUMN (VIRTUAL generated, partitioned table)"
      condition := fun a tm =>
        match tm with
        | none => false
        | some m =>
          if !m.isPartitioned then false
          else
            match findColumn tm a.detail.columnName with
            | some col => isVirtualGenerated col
            | none => false
      algorithm := AlgorithmCopy
      lock := LockShared
      tableRebuild := true
      warnings := ["VIRTUAL generated column on partitioned table requires ALGORITHM=COPY",
                   "SHARED lock — DML writes blocked during operation",
                   "Table rebuild required"] },
    { actionType := ActionDropColumn
      description := "DROP COLUMN (VIRTUAL generated)"
      condition := fun a tm =>
        match findColumn tm a.detail.columnName with
        | some col => isVirtualGenerated col
        | none => false
      algorithm := AlgorithmInstant
      lock := LockNone
      tableRebuild := false
      notes := ["INSTANT algorithm for VIRTUAL generated column (MySQL 8.0+)"] },
    { actionType := ActionDropColumn
      description := "DROP COLUMN"
      condition := alwaysMatch
      algorithm := AlgorithmInstant
      lock := LockNone
      tableRebuild := true
      notes := ["INSTANT algorithm available (MySQL 8.0.29+)",
                "Existing rows retain dropped column data until rewritten"] },
    { actionType := ActionRenameColumn
      description := "RENAME COLUMN (referenced by foreign key)"
      condition := fun a tm =>
        let colName := if a.detail.oldColumnName == "" then a.detail.columnName
                       else a.detail.oldColumnName
        isColumnReferencedByFK colName tm
      algorithm := AlgorithmInplace
      lock := LockNone
      tableRebuild := false
      notes := ["Column referenced by foreign key — requires ALGORITHM=INPLACE (INSTANT not available)"] },
    { actionType := ActionRenameColumn
      description := "RENAME COLUMN"
      condition := alwaysMatch
      algorithm := AlgorithmInstant
      lock := LockNone
      tableRebuild := false
      notes := ["INSTANT algorithm available (MySQL 8.0.28+)"] },
    { actionType := ActionSetDefault
      description := "ALTER COLUMN SET DEFAULT"
      condition := alwaysMatch
      algorithm := AlgorithmInstant
      lock := LockNone
      tableRebuild := false
      notes := ["Metadata-only change"] },
    { actionType := ActionDropDefault
      description := "ALTER COLUMN DROP DEFAULT"
      condition := alwaysMatch
      algorithm := AlgorithmInstant
      lock := LockNone
      tableRebuild := false
      notes := ["Metadata-only change"] } ]

/-- Go predictor.modifyRules (rules_modify.go): MODIFY/CHANGE COLUMN
rules, in declaration order (most specific first). -/
def modifyRules : List PredictionRule :=
  [ { actionType := ActionModifyColumn
      description := "MODIFY COLUMN (generated column reorder)"
      condition := fun a tm =>
        if a.detail.position == "" then false
        else
          match findColumn tm a.detail.columnName with
          | some col => isGeneratedColumn col
          | none => false
      algorithm := AlgorithmCopy
      lock := LockShared
      tableRebuild := true
      warnings := ["Modifying generated column order requires ALGORITHM=COPY",
                   "SHARED lock — DML writes blocked during operation"] },
    { actionType := ActionModifyColumn
      description := "MODIFY COLUMN (ENUM/SET extension)"
      condition := fun a tm =>
        let newType := asciiUpper a.detail.columnType
        if !isEnumOrSetType newType then false
        else
          match findColumn tm a.detail.columnName with
          | none => false
          | some col =>
            let oldType := asciiUpper col.columnType
            if startsWithStr newType "ENUM" != startsWithStr oldType "ENUM" then false
            else if startsWithStr newType "SET" != startsWithStr oldType "SET" then false
            else true
      algorithm := AlgorithmInstant
      lock := LockNone
      tableRebuild := false
      notes := ["INSTANT when adding new members to the end of the list without changing storage size",
                "Adding members in the middle or changing storage size requires COPY"] },
    { actionType := ActionModifyColumn
      description := "MODIFY COLUMN (VARCHAR extension)"
      condition := fun a tm =>
        let newLen := extractVarcharLength a.detail.columnType
        if newLen ≤ 0 then false
        else
          match findColumn tm a.detail.columnName with
          | none => false
          | some col =>
            let oldLen := extractVarcharLength col.columnType
            if oldLen ≤ 0 || newLen ≤ oldLen then false
            else (oldLen ≤ 255 && newLen ≤ 255) || (oldLen ≥ 256 && newLen ≥ 256)
      algorithm := AlgorithmInplace
      lock := LockNone
      tableRebuild := false
      notes := ["VARCHAR extension within same length-byte boundary — in-place, metadata-only",
                "Crossing the 255→256 byte boundary requires ALGORITHM=COPY (length byte changes from 1 to 2)"] },
    { actionType := ActionModifyColumn
      description := "MODIFY COLUMN (NULL → NOT NULL)"
      condition := fun a tm =>
        match findColumn tm a.detail.columnName with
        | none => false
        | some col =>
          let sameType := eqFold col.columnType a.detail.columnType
          sameType && col.isNullable && !isNullablePtr a.detail.isNullable
      algorithm := AlgorithmInplace
      lock := LockNone
      tableRebuild := true
      notes := ["INPLACE algorithm with table rebuild (NULL → NOT NULL conversion)",
                "Requires STRICT_ALL_TABLES or STRICT_TRANS_TABLES SQL mode"]
      warnings := ["Table rebuild required — data validation for NOT NULL constraint; fails if column contains NULL values"] },
    { actionType := ActionModifyColumn
      description := "MODIFY COLUMN (NOT NULL → NULL)"
      condition := fun a tm =>
        match findColumn tm a.detail.columnName with
        | none => false
        | some col =>
          let sameType := eqFold col.columnType a.detail.columnType
          sameType && !col.isNullable && isNullablePtr a.detail.isNullable
      algorithm := AlgorithmInplace
      lock := LockNone
      tableRebuild := true
      notes := ["INPLACE algorithm with table rebuild (NOT NULL → NULL conversion)"]
      warnings := ["Table rebuild required — may take significant time for large tables"] },
    { actionType := ActionModifyColumn
      description := "MODIFY COLUMN (reorder columns)"
      condition := fun a tm =>
        if a.detail.position == "" then false
        else
          match findColumn tm a.detail.columnName with
          | none => false
          | some col =>
            if !eqFold col.columnType a.detail.columnType then false
            else col.isNullable == isNullablePtr a.detail.isNullable
      algorithm := AlgorithmInplace
      lock := LockNone
      tableRebuild := true
      notes := ["Reordering columns requires table rebuild"]
      warnings := ["Table rebuild required — may take significant time for large tables"] },
    { actionType := ActionModifyColumn
      description := "MODIFY COLUMN (type change)"
      condition := fun a tm =>
        match findColumn tm a.detail.columnName with
        | none => true
        | some col => !eqFold col.columnType a.detail.columnType
      algorithm := AlgorithmCopy
      lock := LockShared
      tableRebuild := true
      warnings := ["SHARED lock — DML writes blocked during execution",
                   "Table rebuild required — full table copy",
                   "Consider using pt-online-schema-change or gh-ost for large tables"] },
    { actionType := ActionModifyColumn
      description := "MODIFY COLUMN (rebuild)"
      condition := alwaysMatch
      algorithm := AlgorithmInplace
      lock := LockNone
      tableRebuild := true
      notes := ["INPLACE table rebuild (same type re-specification)"]
      warnings := ["Table rebuild required — may take significant time for large tables"] },
    { actionType := ActionChangeColumn
      description := "CHANGE COLUMN (rename only)"
      condition := fun a tm =>
        match findColumn tm a.detail.oldColumnName with
        | some col => eqFold col.columnType a.detail.columnType
        | none => false
      algorithm := AlgorithmInstant
      lock := LockNone
      tableRebuild := false
      notes := ["INSTANT algorithm available (MySQL 8.0.28+) — rename only, same data type"] },
    { actionType := ActionChangeColumn
      description := "CHANGE COLUMN (type change)"
      condition := alwaysMatch
      algorithm := AlgorithmCopy
      lock := LockShared
      tableRebuild := true
      warnings := ["SHARED lock — DML writes blocked during execution",
                   "Table rebuild required — full table copy",
                   "Consider using pt-online-schema-change or gh-ost for large tables"] } ]

/-- Go predictor.indexRules (rules_index.go): INDEX, PRIMARY KEY and
FOREIGN KEY rules, in declaration order. -/
def indexRules : List PredictionRule :=
  [ { actionType := ActionAddIndex
      description := "ADD INDEX"
      condition := alwaysMatch
      algorithm := AlgorithmInplace
      lock := LockNone
      tableRebuild := false
      notes := ["Online index creation — DML allowed during build"] },
    { actionType := ActionAddUniqueIndex
      description := "ADD UNIQUE INDEX"
      condition := alwaysMatch
      algorithm := AlgorithmInplace
      lock := LockNone
      tableRebuild := false
      notes := ["Online index creation — DML allowed during build"] },
    { actionType := ActionAddFulltextIndex
      description := "ADD FULLTEXT INDEX (first on table)"
      condition := fun _ tm =>
        (match tm with | some _ => true | none => false) && !hasFulltextIndex tm
      algorithm := AlgorithmInplace
      lock := LockShared
      tableRebuild := true
      notes := ["First FULLTEXT index may require table rebuild if no user-defined FTS_DOC_ID column"]
      warnings := ["SHARED lock — DML writes blocked during index creation",
                   "Table rebuild may be required"] },
    { actionType := ActionAddFulltextIndex
      description := "ADD FULLTEXT INDEX"
      condition := alwaysMatch
      algorithm := AlgorithmInplace
      lock := LockShared
      tableRebuild := false
      notes := ["FULLTEXT index creation requires SHARED lock"]
      warnings := ["SHARED lock — DML writes blocked during index creation"] },
    { actionType := ActionAddSpatialIndex
      description := "ADD SPATIAL INDEX"
      condition := alwaysMatch
      algorithm := AlgorithmInplace
      lock := LockShared
      tableRebuild := false
      notes := ["SPATIAL index creation requires at minimum LOCK=SHARED"]
      warnings := ["SHARED lock — DML writes blocked during index creation"] },
    { actionType := ActionDropIndex
      description := "DROP INDEX"
      condition := alwaysMatch
      algorithm := AlgorithmInplace
      lock := LockNone
      tableRebuild := false
      notes := ["Metadata-only change"] },
    { actionType := ActionRenameIndex
      description := "RENAME INDEX"
      condition := alwaysMatch
      algorithm := AlgorithmInplace
      lock := LockNone
      tableRebuild := false
      notes := ["Metadata-only change"] },
    { actionType := ActionAddPrimaryKey
      description := "ADD PRIMARY KEY"
      condition := alwaysMatch
      algorithm := AlgorithmInplace
      lock := LockNone
      tableRebuild := true
      notes := ["Table rebuild required — clustered index recreation",
                "ALGORITHM=INPLACE is not permitted if columns must be converted to NOT NULL"]
      warnings := ["Table rebuild required — expensive operation for large tables"] },
    { actionType := ActionDropPrimaryKey
      description := "DROP PRIMARY KEY"
      condition := alwaysMatch
      algorithm := AlgorithmCopy
      lock := LockShared
      tableRebuild := true
      warnings := ["SHARED lock — DML writes blocked during execution",
                   "Table rebuild required — full table copy",
                   "Consider dropping and adding primary key in a single ALTER TABLE statement for INPLACE support"] },
    { actionType := ActionAddForeignKey
      description := "ADD FOREIGN KEY"
      condition := alwaysMatch
      algorithm := AlgorithmCopy
      lock := LockShared
      tableRebuild := false
      notes := ["Default behavior with foreign_key_checks=ON (default): ALGORITHM=COPY",
                "ALGORITHM=INPLACE with LOCK=NONE is available only when foreign_key_checks=OFF"]
      warnings := ["SHARED lock — DML writes blocked during execution; set foreign_key_checks=OFF for INPLACE operation"] },
    { actionType := ActionDropForeignKey
      description := "DROP FOREIGN KEY"
      condition := alwaysMatch
      algorithm := AlgorithmInplace
      lock := LockNone
      tableRebuild := false
      notes := ["Metadata-only change"] } ]

/-- Go predictor.tableRules (rules_table.go): RENAME TABLE, ENGINE,
CHARSET and related table operations, in declaration order. -/
def tableRules : List PredictionRule :=
  [ { actionType := ActionRenameTable
      description := "RENAME TABLE"
      condition := alwaysMatch
      algorithm := AlgorithmInstant
      lock := LockNone
      tableRebuild := false
      notes := ["Metadata-only change"] },
    { actionType := ActionChangeEngine
      description := "CHANGE ENGINE (same engine — null rebuild)"
      condition := fun a tm =>
        match tm with
        | none => false
        | some m => eqFold a.detail.engine m.engine
      algorithm := AlgorithmInplace
      lock := LockNone
      tableRebuild := true
      notes := ["Same engine — table rebuild for defragmentation (equivalent to ALTER TABLE ... FORCE)"] },
    { actionType := ActionChangeEngine
      description := "CHANGE ENGINE (different engine)"
      condition := fun a tm =>
        match tm with
        | none => true
        | some m => !eqFold a.detail.engine m.engine
      algorithm := AlgorithmCopy
      lock := LockShared
      tableRebuild := true
      warnings := ["SHARED lock — DML writes blocked during execution",
                   "Engine conversion requires full table copy"] },
    { actionType := ActionConvertCharset
      description := "CONVERT CHARACTER SET"
      condition := alwaysMatch
      algorithm := AlgorithmInplace
      lock := LockShared
      tableRebuild := true
      notes := ["INPLACE algorithm with table rebuild when character encoding differs"]
      warnings := ["SHARED lock — DML writes blocked during execution",
                   "Table rebuild required if new character encoding differs from current"] },
    { actionType := ActionChangeRowFormat
      description := "CHANGE ROW_FORMAT"
      condition := alwaysMatch
      algorithm := AlgorithmInplace
      lock := LockNone
      tableRebuild := true
      notes := ["ROW_FORMAT change requires table rebuild"] },
    { actionType := ActionChangeKeyBlockSize
      description := "CHANGE KEY_BLOCK_SIZE"
      condition := alwaysMatch
      algorithm := AlgorithmInplace
      lock := LockNone
      tableRebuild := true
      notes := ["KEY_BLOCK_SIZE change requires table rebuild"] },
    { actionType := ActionChangeAutoIncrement
      description := "CHANGE AUTO_INCREMENT value"
      condition := alwaysMatch
      algorithm := AlgorithmInplace
      lock := LockNone
      tableRebuild := false
      notes := ["Only modifies the in-memory auto-increment counter, not the data file"] },
    { actionType := ActionForceRebuild
      description := "ALTER TABLE ... FORCE (rebuild)"
      condition := alwaysMatch
      algorithm := AlgorithmInplace
      lock := LockNone
      tableRebuild := true
      notes := ["Online table rebuild — equivalent to ALTER TABLE ... ENGINE=InnoDB"]
      warnings := ["Table rebuild required — may take significant time for large tables"] },
    { actionType := ActionSpecifyCharset
      description := "SPECIFY CHARACTER SET"
      condition := alwaysMatch
      algorithm := AlgorithmInplace
      lock := LockNone
      tableRebuild := true
      notes := ["Changes the default character set for the table (does not convert existing columns)",
                "Rebuilds table if new character encoding differs from current",
                "Different from CONVERT TO CHARACTER SET which converts all existing columns"] },
    { actionType := ActionSetTableStats
      description := "SET TABLE STATISTICS"
      condition := alwaysMatch
      algorithm := AlgorithmInplace
      lock := LockNone
      tableRebuild := false
      notes := ["Metadata-only change — modifies persistent statistics settings"] },
    { actionType := ActionTableEncryption
      description := "TABLE ENCRYPTION"
      condition := alwaysMatch
      algorithm := AlgorithmCopy
      lock := LockShared
      tableRebuild := true
      warnings := ["SHARED lock — DML writes blocked during encryption change",
                   "Table rebuild required — full table copy for encryption/decryption"] } ]

/-- Go predictor.partitionRules (rules_partition.go): all partition
operations, in declaration order. -/
def partitionRules : List PredictionRule :=
  [ { actionType := ActionAddPartition
      description := "ADD PARTITION (HASH/KEY)"
      condition := fun _ tm =>
        match tm with
        | none => false
        | some m => isHashOrKeyPartition m.partitionType
      algorithm := AlgorithmInplace
      lock := LockShared
      tableRebuild := false
      notes := ["HASH/KEY partition — data is copied between partitions"]
      warnings := ["SHARED lock — DML writes blocked during partition addition"] },
    { actionType := ActionAddPartition
      description := "ADD PARTITION"
      condition := alwaysMatch
      algorithm := AlgorithmInplace
      lock := LockNone
      tableRebuild := false
      notes := ["INPLACE for RANGE/LIST partitions — no data copying",
                "For HASH/KEY partitions: data is copied between partitions and requires LOCK=SHARED"] },
    { actionType := ActionDropPartition
      description := "DROP PARTITION (HASH/KEY)"
      condition := fun _ tm =>
        match tm with
        | none => false
        | some m => isHashOrKeyPartition m.partitionType
      algorithm := AlgorithmInplace
      lock := LockShared
      tableRebuild := false
      notes := ["HASH/KEY partition — data is redistributed between remaining partitions"]
      warnings := ["SHARED lock — DML writes blocked during partition drop",
                   "Data in the partition will be permanently deleted"] },
    { actionType := ActionDropPartition
      description := "DROP PARTITION"
      condition := alwaysMatch
      algorithm := AlgorithmInplace
      lock := LockNone
      tableRebuild := false
      notes := ["Deletes data stored in the partition and drops it"]
      warnings := ["Data in the partition will be permanently deleted"] },
    { actionType := ActionTruncatePartition
      description := "TRUNCATE PARTITION"
      condition := alwaysMatch
      algorithm := AlgorithmInplace
      lock := LockNone
      tableRebuild := false
      notes := ["Truncates data in the partition without dropping it"] },
    { actionType := ActionExchangePartition
      description := "EXCHANGE PARTITION"
      condition := alwaysMatch
      algorithm := AlgorithmInplace
      lock := LockNone
      tableRebuild := false
      notes := ["Exchanges partition data with a non-partitioned table"] },
    { actionType := ActionCoalescePartition
      description := "COALESCE PARTITION"
      condition := alwaysMatch
      algorithm := AlgorithmInplace
      lock := LockShared
      tableRebuild := false
      notes := ["Data is copied between partitions"]
      warnings := ["SHARED lock — DML writes blocked during partition coalescing"] },
    { actionType := ActionReorganizePartition
      description := "REORGANIZE PARTITION"
      condition := alwaysMatch
      algorithm := AlgorithmInplace
      lock := LockShared
      tableRebuild := false
      notes := ["Data is copied between partitions"]
      warnings := ["SHARED lock — DML writes blocked during partition reorganization"] },
    { actionType := ActionRebuildPartition
      description := "REBUILD PARTITION"
      condition := alwaysMatch
      algorithm := AlgorithmInplace
      lock := LockShared
      tableRebuild := false
      warnings := ["SHARED lock — DML writes blocked during partition rebuild"] },
    { actionType := ActionPartitionBy
      description := "PARTITION BY"
      condition := alwaysMatch
      algorithm := AlgorithmCopy
      lock := LockShared
      tableRebuild := true
      warnings := ["SHARED lock — DML writes blocked during operation",
                   "Table rebuild required — partitioning structure change"] },
    { actionType := ActionRemovePartitioning
      description := "REMOVE PARTITIONING"
      condition := alwaysMatch
      algorithm := AlgorithmCopy
      lock := LockShared
      tableRebuild := true
      warnings := ["SHARED lock — DML writes blocked during operation",
                   "Table rebuild required — removing partitioning structure"] },
    { actionType := ActionCheckPartition
      description := "CHECK PARTITION"
      condition := alwaysMatch
      algorithm := AlgorithmInplace
      lock := LockNone
      tableRebuild := false
      notes := ["Partition validation — read-only operation"] },
    { actionType := ActionOptimizePartition
      description := "OPTIMIZE PARTITION"
      condition := alwaysMatch
      algorithm := AlgorithmCopy
      lock := LockShared
      tableRebuild := true
      notes := ["Rebuilds entire table — ALGORITHM and LOCK clauses are ignored by MySQL"]
      warnings := ["SHARED lock — DML writes blocked during optimization",
                   "Table rebuild required — entire table is rebuilt regardless of partition scope"] },
    { actionType := ActionRepairPartition
      description := "REPAIR PARTITION"
      condition := alwaysMatch
      algorithm := AlgorithmInplace
      lock := LockNone
      tableRebuild := false
      notes := ["Partition repair operation"] },
    { actionType := ActionDiscardPartitionTablespace
      description := "DISCARD PARTITION TABLESPACE"
      condition := alwaysMatch
      algorithm := AlgorithmCopy
      lock := LockExclusive
      tableRebuild := false
      notes := ["Only ALGORITHM=DEFAULT and LOCK=DEFAULT are permitted by MySQL"]
      warnings := ["EXCLUSIVE lock — no concurrent read or write access during tablespace discard"] },
    { actionType := ActionImportPartitionTablespace
      description := "IMPORT PARTITION TABLESPACE"
      condition := alwaysMatch
      algorithm := AlgorithmCopy
      lock := LockExclusive
      tableRebuild := false
      notes := ["Only ALGORITHM=DEFAULT and LOCK=DEFAULT are permitted by MySQL"]
      warnings := ["EXCLUSIVE lock — no concurrent read or write access during tablespace import"] } ]

/-- Go predictor.defaultRules (current split layout): the per-category
rule lists concatenated in the order used by the source. -/
def defaultRules : List PredictionRule :=
  columnRules ++ modifyRules ++ indexRules ++ tableRules ++ partitionRules

/-- Go predictor.Prediction. The TableInfo payload (CollectTableInfo) is
produced by a file absent from the sources and carries only display
metadata, so it is not modelled here. -/
structure Prediction where
  actionType : String
  description : String
  algorithm : String
  lock : String
  tableRebuild : Bool
  riskLevel : String
  notes : List String := []
  warnings : List String := []
deriving Repr, DecidableEq

/-- Go predictor.calculateRisk. -/
def calculateRisk (algorithm lock : String) (rebuild : Bool) : String :=
  if algorithm == AlgorithmCopy || lock == LockExclusive then RiskCritical
  else if algorithm == AlgorithmInstant then RiskLow
  else if rebuild then RiskHigh
  else RiskMedium

/-- The guard of Predict's first return: snapshot present, engine not
case-insensitively "InnoDB", engine non-empty. -/
def nonInnoDB : Option TableMeta → Bool
  | none => false
  | some m => !eqFold m.engine "InnoDB" && m.engine != ""

/-- The rule scan inside Go predictor.Predict: the first rule whose
action type equals the action's type and whose condition holds. -/
def findRule (rules : List PredictionRule) (action : AlterAction)
    (tm : Option TableMeta) : Option PredictionRule :=
  rules.find? fun rule => rule.actionType == action.type && rule.condition action tm

/-- Go (*Predictor).Predict with the default rules of New(): the
non-InnoDB short circuit, then the first-match rule scan, then the
conservative fallback. -/
def predict (action : AlterAction) (tm : Option TableMeta) : Prediction :=
  if nonInnoDB tm then
    { actionType := action.type
      description := action.type ++ " (non-InnoDB)"
      algorithm := AlgorithmCopy
      lock := LockExclusive
      tableRebuild := true
      riskLevel := RiskCritical
      warnings := ["Non-InnoDB engine — all operations use COPY algorithm with EXCLUSIVE lock"] }
  else
    match findRule defaultRules action tm with
    | some rule =>
      { actionType := action.type
        description := rule.description
        algorithm := rule.algorithm
        lock := rule.lock
        tableRebuild := rule.tableRebuild
        riskLevel := calculateRisk rule.algorithm rule.lock rule.tableRebuild
        notes := rule.notes
        warnings := rule.warnings }
    | none =>
      { actionType := action.type
        description := action.type ++ " (unknown)"
        algorithm := AlgorithmCopy
        lock := LockExclusive
        tableRebuild := true
        riskLevel := RiskCritical
        warnings := ["Unknown operation — defaulting to COPY/EXCLUSIVE for safety"] }

/-- Go fkresolver.FKDirectionParent. -/
def FKDirectionParent : String := "PARENT"

/-- Go fkresolver.FKDirectionChild. -/
def FKDirectionChild : String := "CHILD"

/-- Go fkresolver.FKLockImpact. -/
structure FKLockImpact where
  metadataLock : Bool := false
  lockLevel : String := ""
  reason : String := ""
deriving Repr, DecidableEq

/-- Go fkresolver.FKRelation. -/
structure FKRelation where
  table : String
  constraint : ForeignKeyMeta
  direction : String
  depth : Nat
  lockImpact : FKLockImpact
deriving Repr, DecidableEq

/-- Go fkresolver.FKGraph. -/
structure FKGraph where
  root : String
  parents : List FKRelation := []
  children : List FKRelation := []
  maxDepth : Nat
  warnings : List String := []
deriving Repr, DecidableEq

/-- Go (*FKGraph).TotalAffectedTables. -/
def totalAffectedTables (g : FKGraph) : Nat :=
  g.parents.length + g.children.length

/-- Go fkresolver.isFKColumn: exact (case-sensitive) membership of the
column name in the source or referenced column lists. -/
def isFKColumn (colName : String) (fk : ForeignKeyMeta) : Bool :=
  fk.sourceColumns.any (fun c => c == colName) ||
    fk.referencedColumns.any (fun c => c == colName)

/-- Go fkresolver.fkColumnsStr. -/
def fkColumnsStr (cols : List String) : String :=
  match cols with
  | [c] => c
  | _ => "(" ++ String.intercalate ", " cols ++ ")"

/-- The reason string of the default shared metadata-lock impact. -/
def fkSharedReason (fk : ForeignKeyMeta) : String :=
  "FK: " ++ fk.sourceTable ++ "." ++ fkColumnsStr fk.sourceColumns ++ " → " ++
    fk.referencedTable ++ "." ++ fkColumnsStr fk.referencedColumns

/-- The action loop inside Go fkresolver.DetermineLockImpact: the first
action that directly involves an FK column yields an exclusive impact. -/
def lockImpactLoop : List AlterAction → ForeignKeyMeta → Option FKLockImpact
  | [], _ => none
  | action :: rest, fk =>
    if action.type == ActionDropColumn && isFKColumn action.detail.columnName fk then
      some { metadataLock := true
             lockLevel := LockExclusive
             reason := "DROP COLUMN on FK column — implicit FK constraint change" }
    else if (action.type == ActionModifyColumn || action.type == ActionChangeColumn) &&
        isFKColumn action.detail.columnName fk then
      some { metadataLock := true
             lockLevel := LockExclusive
             reason := "Column type change on FK column — FK validation required" }
    else lockImpactLoop rest fk

/-- Go fkresolver.DetermineLockImpact. -/
def determineLockImpact (direction : String) (actions : List AlterAction)
    (fk : ForeignKeyMeta) : FKLockImpact :=
  match lockImpactLoop actions fk with
  | some impact => impact
  | none =>
    if direction == FKDirectionParent then
      { metadataLock := true, lockLevel := LockShared, reason := fkSharedReason fk }
    else if direction == FKDirectionChild then
      { metadataLock := true, lockLevel := LockShared, reason := fkSharedReason fk }
    else {}

/-- Go fkresolver.qualifiedName. -/
def qualifiedName (schema table : String) : String :=
  if schema == "" then table else schema ++ "." ++ table

/-- Go fkresolver.Resolver. The MetaProvider interface is embedded as a
lookup function where none stands for a failed GetTableMeta call; Go's
int maxDepth is embedded as Nat (the CLI flag is non-negative). -/
structure Resolver where
  provider : String → String → Option TableMeta
  maxDepth : Nat
  fkChecks : Bool

/-- The state threaded through the traversal: the graph under
construction and the visited set (Go passes both by reference). -/
structure ResolveState where
  graph : FKGraph
  visited : List String
deriving Repr

/-- Go (*Resolver).resolveParent. Recursion in Go is bounded by the
depth guard alone; here an explicit fuel argument makes the recursion
structural, and resolve below supplies fuel maxDepth + 1 so that the Go
guard (depth > maxDepth, checked first, exactly as in the source) always
fires before the fuel runs out. Go's nil-provider check is omitted: a
nil provider would already make Resolve panic at the root lookup, so it
is unreachable, and the modelled provider is a total Option-valued
function. -/
def resolveParent (r : Resolver) (actions : List AlterAction) :
    Nat → ForeignKeyMeta → Nat → ResolveState → ResolveState
  | 0, _, _, st => st
  | fuel + 1, fk, depth, st =>
    if r.maxDepth < depth then st
    else
      let key := qualifiedName fk.referencedSchema fk.referencedTable
      if st.visited.contains key then
        { st with graph := { st.graph with
            warnings := st.graph.warnings ++
              ["Circular FK reference detected: " ++ key ++ " (skipping)"] } }
      else
        let st1 : ResolveState := { st with visited := st.visited ++ [key] }
        let impact := determineLockImpact FKDirectionParent actions fk
        let rel : FKRelation :=
          { table := key, constraint := fk, direction := FKDirectionParent
            depth := depth, lockImpact := impact }
        let st2 : ResolveState :=
          { st1 with graph := { st1.graph with parents := st1.graph.parents ++ [rel] } }
        match r.provider fk.referencedSchema fk.referencedTable with
        | none => st2
        | some parentMeta =>
          parentMeta.foreignKeys.foldl
            (fun s pfk => resolveParent r actions fuel pfk (depth + 1) s) st2

/-- Go (*Resolver).resolveChild, the mirror image of resolveParent: keys
on the source side of the edge, appends to children, recurses over the
inbound keys of the child table. -/
def resolveChild (r : Resolver) (actions : List AlterAction) :
    Nat → ForeignKeyMeta → Nat → ResolveState → ResolveState
  | 0, _, _, st => st
  | fuel + 1, fk, depth, st =>
    if r.maxDepth < depth then st
    else
      let key := qualifiedName fk.sourceSchema fk.sourceTable
      if st.visited.contains key then
        { st with graph := { st.graph with
            warnings := st.graph.warnings ++
              ["Circular FK reference detected: " ++ key ++ " (skipping)"] } }
      else
        let st1 : ResolveState := { st with visited := st.visited ++ [key] }
        let impact := determineLockImpact FKDirectionChild actions fk
        let rel : FKRelation :=
          { table := key, constraint := fk, direction := FKDirectionChild
            depth := depth, lockImpact := impact }
        let st2 : ResolveState :=
          { st1 with graph := { st1.graph with children := st1.graph.children ++ [rel] } }
        match r.provider fk.sourceSchema fk.sourceTable with
        | none => st2
        | some childMeta =>
          childMeta.referencedBy.foldl
            (fun s cfk => resolveChild r actions fuel cfk (depth + 1) s) st2

/-- Go (*Resolver).Resolve. The Go function returns (graph, nil) on
every path; the second component models that always-nil error. -/
def resolve (r : Resolver) (schema table : String) (actions : List AlterAction) :
    FKGraph × Option String :=
  let graph : FKGraph := { root := qualifiedName schema table, maxDepth := r.maxDepth }
  if !r.fkChecks then (graph, none)
  else
    match r.provider schema table with
    | none => (graph, none)
    | some tableMeta =>
      let st0 : ResolveState := { graph := graph, visited := [qualifiedName schema table] }
      let st1 := tableMeta.foreignKeys.foldl
        (fun s fk => resolveParent r actions (r.maxDepth + 1) fk 1 s) st0
      let st2 := tableMeta.referencedBy.foldl
        (fun s fk => resolveChild r actions (r.maxDepth + 1) fk 1 s) st1
      (st2.graph, none)

/-- Modelled from the spec: the Risk Classifier as §4.1 words it —
"critical if strategy is blocking-copy OR lock is exclusive; low if
strategy is no-rewrite-instant; otherwise (online-rewrite-in-place):
high if rewrite flag is true, medium if false" — for comparison with
the implementation's calculateRisk. -/
def riskSpec (strategy lock : String) (rb : Bool) : String :=
  if strategy = AlgorithmCopy ∨ lock = LockExclusive then RiskCritical
  else if strategy = AlgorithmInstant then RiskLow
  else if rb then RiskHigh
  else RiskMedium

/-- Fixture: the name of the i-th table of a linear FK chain; unary
names keep injectivity elementary. -/
def chainName (i : Nat) : String :=
  String.mk (List.replicate i 'a')

/-- Fixture: the FK edge linking chain table i to chain table i + 1. -/
def chainFK (i : Nat) : ForeignKeyMeta :=
  { constraintName := "fk_chain"
    sourceSchema := ""
    sourceTable := chainName i
    sourceColumns := ["parent_id"]
    referencedSchema := ""
    referencedTable := chainName (i + 1)
    referencedColumns := ["id"] }

/-- Fixture: the snapshot of chain table i in a chain of n edges: one
outbound key while i < n, none at the end, no inbound keys. -/
def chainMeta (n i : Nat) : TableMeta :=
  { table := chainName i
    engine := "InnoDB"
    foreignKeys := if i < n then [chainFK i] else []
    referencedBy := [] }

/-- Fixture: a metadata provider describing a linear chain of n FK
edges over the tables chainName 0 … chainName n. -/
def chainProvider (n : Nat) : String → String → Option TableMeta :=
  fun _ table =>
    if table = chainName table.length ∧ table.length ≤ n then
      some (chainMeta n table.length)
    else none

/-- Fixture: a resolver over the linear chain with FK checks on. -/
def chainResolver (maxDepth n : Nat) : Resolver :=
  { provider := chainProvider n, maxDepth := maxDepth, fkChecks := true }

/-- Fixture: table a references table b. -/
def fkAB : ForeignKeyMeta :=
  { constraintName := "fk_a_b"
    sourceTable := "a"
    sourceColumns := ["b_id"]
    referencedTable := "b"
    referencedColumns := ["id"] }

/-- Fixture: table b references table a. -/
def fkBA : ForeignKeyMeta :=
  { constraintName := "fk_b_a"
    sourceTable := "b"
    sourceColumns := ["a_id"]
    referencedTable := "a"
    referencedColumns := ["id"] }

/-- Fixture: a metadata provider describing a two-table mutual
foreign-key reference (a references b and b references a). -/
def mutualProvider : String → String → Option TableMeta :=
  fun _ table =>
    if table = "a" then
      some { table := "a", engine := "InnoDB", foreignKeys := [fkAB], referencedBy := [fkBA] }
    else if table = "b" then
      some { table := "b", engine := "InnoDB", foreignKeys := [fkBA], referencedBy := [fkAB] }
    else none

/-- Fixture: a resolver over the mutual reference with FK checks on. -/
def mutualResolver (maxDepth : Nat) : Resolver :=
  { provider := mutualProvider, maxDepth := maxDepth, fkChecks := true }

/-- C1: for every action and every non-nil snapshot whose storage engine
string is non-empty and is not, case-insensitively, "InnoDB", Predict
short-circuits to Algorithm=COPY, Lock=EXCLUSIVE, TableRebuild=true,
RiskLevel=CRITICAL with the missing-online-DDL warning, regardless of
the action's kind and before any per-kind rule is consulted. -/
theorem predict_non_innodb_short_circuit (action : AlterAction) (m : TableMeta)
    (hEng : eqFold m.engine "InnoDB" = false) (hNe : m.engine ≠ "") :
    predict action (some m) =
      { actionType := action.type
        description := action.type ++ " (non-InnoDB)"
        algorithm := AlgorithmCopy
        lock := LockExclusive
        tableRebuild := true
        riskLevel := RiskCritical
        warnings := ["Non-InnoDB engine — all operations use COPY algorithm with EXCLUSIVE lock"] } := by
  simp [predict, nonInnoDB, hEng, hNe]

/-- Witness for C1: a MyISAM snapshot under an ADD COLUMN action. -/
theorem predict_non_innodb_short_circuit_witness :
    predict { type := ActionAddColumn } (some { engine := "MyISAM" }) =
      { actionType := ActionAddColumn
        description := ActionAddColumn ++ " (non-InnoDB)"
        algorithm := AlgorithmCopy
        lock := LockExclusive
        tableRebuild := true
        riskLevel := RiskCritical
        warnings := ["Non-InnoDB engine — all operations use COPY algorithm with EXCLUSIVE lock"] } :=
  predict_non_innodb_short_circuit { type := ActionAddColumn } { engine := "MyISAM" }
    (by decide) (by decide)

/-- C2: the risk classifier is exactly the priority-ordered total
function of (algorithm, lock, rebuild) the spec describes, and every
Prediction whose algorithm is COPY or whose lock is EXCLUSIVE is
classified CRITICAL. -/
theorem calculate_risk_priority :
    (∀ (a l : String) (rb : Bool), calculateRisk a l rb = riskSpec a l rb) ∧
    (∀ (action : AlterAction) (tm : Option TableMeta),
      (predict action tm).algorithm = AlgorithmCopy ∨
        (predict action tm).lock = LockExclusive →
      (predict action tm).riskLevel = RiskCritical) := by
  constructor
  · intro a l rb
    by_cases hc : a = AlgorithmCopy <;> by_cases hl : l = LockExclusive <;>
      by_cases hi : a = AlgorithmInstant <;>
      simp [calculateRisk, riskSpec, hc, hl, hi]
  · intro action tm h
    by_cases hni : nonInnoDB tm
    · simp [predict, hni]
    · simp only [predict, hni, Bool.false_eq_true, if_false] at h ⊢
      cases hfind : findRule defaultRules action tm with
      | none => simp [hfind]
      | some rule =>
        simp only [hfind] at h ⊢
        rcases h with h | h <;> simp [calculateRisk, h]

/-- Witness for C2: DROP PRIMARY KEY predicts COPY, so the risk must be
CRITICAL. -/
theorem calculate_risk_priority_witness :
    (predict { type := ActionDropPrimaryKey } none).riskLevel = RiskCritical :=
  calculate_risk_priority.2 { type := ActionDropPrimaryKey } none (Or.inl (by decide))

/-- C3: Predict is total by construction (it returns a Prediction for
every action and snapshot, including a nil snapshot), and when the
engine short circuit does not fire and no rule matches the action's
kind it returns the conservative COPY/EXCLUSIVE/rebuild/CRITICAL
defaults with the unrecognized-operation warning. -/
theorem predict_unknown_fallback (action : AlterAction) (tm : Option TableMeta)
    (hEngine : nonInnoDB tm = false)
    (hNoRule : findRule defaultRules action tm = none) :
    predict action tm =
      { actionType := action.type
        description := action.type ++ " (unknown)"
        algorithm := AlgorithmCopy
        lock := LockExclusive
        tableRebuild := true
        riskLevel := RiskCritical
        warnings := ["Unknown operation — defaulting to COPY/EXCLUSIVE for safety"] } := by
  simp [predict, hEngine, hNoRule]

/-- Witness for C3: an action kind outside the rule table falls back to
the conservative defaults. -/
theorem predict_unknown_fallback_witness :
    predict { type := "FLUSH_TABLES" } none =
      { actionType := "FLUSH_TABLES"
        description := "FLUSH_TABLES" ++ " (unknown)"
        algorithm := AlgorithmCopy
        lock := LockExclusive
        tableRebuild := true
        riskLevel := RiskCritical
        warnings := ["Unknown operation — defaulting to COPY/EXCLUSIVE for safety"] } :=
  predict_unknown_fallback { type := "FLUSH_TABLES" } none rfl rfl

/-- C7: Resolve never returns an error, and when FK checks are off, or
the root metadata lookup fails, or the root table has no foreign keys
in either direction, it returns the graph with only the root identity
set: no parents, no children (zero total affected tables), no
warnings. -/
theorem resolve_absorbs_missing_metadata (r : Resolver) (schema table : String)
    (actions : List AlterAction) :
    (resolve r schema table actions).2 = none ∧
    (r.fkChecks = false →
      (resolve r schema table actions).1 =
        { root := qualifiedName schema table, maxDepth := r.maxDepth }) ∧
    (r.provider schema table = none →
      (resolve r schema table actions).1 =
        { root := qualifiedName schema table, maxDepth := r.maxDepth }) ∧
    (∀ tm, r.provider schema table = some tm → tm.foreignKeys = [] →
      tm.referencedBy = [] →
      (resolve r schema table actions).1 =
        { root := qualifiedName schema table, maxDepth := r.maxDepth } ∧
      totalAffectedTables (resolve r schema table actions).1 = 0 ∧
      (resolve r schema table actions).1.warnings = []) := by
  refine ⟨?_, ?_, ?_, ?_⟩
  · by_cases hfk : r.fkChecks
    · cases hp : r.provider schema table <;> simp [resolve, hfk, hp]
    · simp [resolve, hfk]
  · intro h
    simp [resolve, h]
  · intro h
    by_cases hfk : r.fkChecks
    · simp [resolve, hfk, h]
    · simp [resolve, hfk]
  · intro tm hp hfks hrefs
    by_cases hfk : r.fkChecks
    · refine ⟨?_, ?_, ?_⟩ <;>
        simp [resolve, hfk, hp, hfks, hrefs, totalAffectedTables]
    · refine ⟨?_, ?_, ?_⟩ <;> simp [resolve, hfk, totalAffectedTables]

/-- Witness for C7: resolving against a provider with no metadata
returns the empty graph with the root identity set. -/
theorem resolve_absorbs_missing_metadata_witness :
    (resolve { provider := fun _ _ => none, maxDepth := 5, fkChecks := true }
        "db" "users" []).1 =
      { root := "db.users", maxDepth := 5 } :=
  (resolve_absorbs_missing_metadata
    { provider := fun _ _ => none, maxDepth := 5, fkChecks := true }
    "db" "users" []).2.2.1 rfl

/-- Rules whose action type differs from the action's type are skipped
by the first-match scan. -/
theorem findRule_append_skip (rules1 rules2 : List PredictionRule)
    (action : AlterAction) (tm : Option TableMeta)
    (h : ∀ r ∈ rules1, (r.actionType == action.type) = false) :
    findRule (rules1 ++ rules2) action tm = findRule rules2 action tm := by
  induction rules1 with
  | nil => rfl
  | cons r rs ih =>
    have hr : (r.actionType == action.type) = false := h r (by simp)
    have hrest : ∀ x ∈ rs, (x.actionType == action.type) = false :=
      fun x hx => h x (by simp [hx])
    simp only [findRule, List.cons_append, List.find?, hr, Bool.false_and]
    exact ih hrest

/-- C8 counterexample: the prediction for ADD FOREIGN KEY is COPY with
a SHARED lock; it is never INPLACE with LOCK=NONE, because Predict has
no referential-checking input at all (the fk-checks flag is routed only
to the FK resolver). -/
theorem predict_add_fk_counterexample :
    (predict { type := ActionAddForeignKey } none).algorithm = AlgorithmCopy ∧
    (predict { type := ActionAddForeignKey } none).lock = LockShared ∧
    (predict { type := ActionAddForeignKey } none).algorithm ≠ AlgorithmInplace ∧
    (predict { type := ActionAddForeignKey } none).lock ≠ LockNone := by
  refine ⟨by decide, by decide, by decide, by decide⟩

/-- C8 amended: foreign key addition is always predicted as COPY (for
any detail payload and any snapshot), and outside the engine short
circuit the full outcome is COPY with LOCK=SHARED, no rebuild, risk
CRITICAL; the INPLACE-with-checks-off possibility appears only in the
advisory note and warning strings. -/
theorem predict_add_fk_always_copy :
    (∀ (d : ActionDetail) (tm : Option TableMeta),
      (predict { type := ActionAddForeignKey, detail := d } tm).algorithm = AlgorithmCopy) ∧
    (∀ (d : ActionDetail) (tm : Option TableMeta), nonInnoDB tm = false →
      predict { type := ActionAddForeignKey, detail := d } tm =
        { actionType := ActionAddForeignKey
          description := "ADD FOREIGN KEY"
          algorithm := AlgorithmCopy
          lock := LockShared
          tableRebuild := false
          riskLevel := RiskCritical
          notes := ["Default behavior with foreign_key_checks=ON (default): ALGORITHM=COPY",
                    "ALGORITHM=INPLACE with LOCK=NONE is available only when foreign_key_checks=OFF"]
          warnings := ["SHARED lock — DML writes blocked during execution; set foreign_key_checks=OFF for INPLACE operation"] }) := by
  have hfind : ∀ (d : ActionDetail) (tm : Option TableMeta),
      findRule defaultRules { type := ActionAddForeignKey, detail := d } tm =
        some { actionType := ActionAddForeignKey
               description := "ADD FOREIGN KEY"
               condition := alwaysMatch
               algorithm := AlgorithmCopy
               lock := LockShared
               tableRebuild := false
               notes := ["Default behavior with foreign_key_checks=ON (default): ALGORITHM=COPY",
                         "ALGORITHM=INPLACE with LOCK=NONE is available only when foreign_key_checks=OFF"]
               warnings := ["SHARED lock — DML writes blocked during execution; set foreign_key_checks=OFF for INPLACE operation"] } := by
    intro d tm
    rw [defaultRules, List.append_assoc, List.append_assoc, List.append_assoc,
      findRule_append_skip columnRules _ _ _
        (by show ∀ r ∈ columnRules, (r.actionType == ActionAddForeignKey) = false
            decide),
      findRule_append_skip modifyRules _ _ _
        (by show ∀ r ∈ modifyRules, (r.actionType == ActionAddForeignKey) = false
            decide)]
    simp [findRule, indexRules, List.find?, alwaysMatch,
      ActionAddIndex, ActionAddUniqueIndex, ActionAddFulltextIndex,
      ActionAddSpatialIndex, ActionDropIndex, ActionRenameIndex,
      ActionAddPrimaryKey, ActionDropPrimaryKey, ActionAddForeignKey]
  constructor
  · intro d tm
    by_cases hni : nonInnoDB tm
    · simp [predict, hni]
    · simp [predict, hni, hfind d tm]
  · intro d tm hni
    simp [predict, hni, hfind d tm, calculateRisk]

/-- Witness for the C8 amended theorem: an InnoDB snapshot. -/
theorem predict_add_fk_always_copy_witness :
    predict { type := ActionAddForeignKey } (some { engine := "InnoDB" }) =
      { actionType := ActionAddForeignKey
        description := "ADD FOREIGN KEY"
        algorithm := AlgorithmCopy
        lock := LockShared
        tableRebuild := false
        riskLevel := RiskCritical
        notes := ["Default behavior with foreign_key_checks=ON (default): ALGORITHM=COPY",
                  "ALGORITHM=INPLACE with LOCK=NONE is available only when foreign_key_checks=OFF"]
        warnings := ["SHARED lock — DML writes blocked during execution; set foreign_key_checks=OFF for INPLACE operation"] } :=
  predict_add_fk_always_copy.2 {} (some { engine := "InnoDB" }) (by decide)

/-- Whether one action directly involves a column of the given edge in
a constraint-affecting way (drop, modify or change of an FK column). -/
def fkTouchingAction (a : AlterAction) (fk : ForeignKeyMeta) : Prop :=
  (a.type = ActionDropColumn ∨ a.type = ActionModifyColumn ∨ a.type = ActionChangeColumn) ∧
    isFKColumn a.detail.columnName fk = true

instance (a : AlterAction) (fk : ForeignKeyMeta) : Decidable (fkTouchingAction a fk) := by
  unfold fkTouchingAction; infer_instance

/-- The action loop yields no exclusive impact when no action in the
list touches an FK column of the edge. -/
theorem lockImpactLoop_eq_none (actions : List AlterAction) (fk : ForeignKeyMeta)
    (h : ∀ a ∈ actions, ¬fkTouchingAction a fk) :
    lockImpactLoop actions fk = none := by
  induction actions with
  | nil => rfl
  | cons a rest ih =>
    have ha := h a (by simp)
    have h1 : ¬(a.type = ActionDropColumn ∧ isFKColumn a.detail.columnName fk = true) := by
      intro ⟨ht, hc⟩; exact ha ⟨Or.inl ht, hc⟩
    have h2 : ¬((a.type = ActionModifyColumn ∨ a.type = ActionChangeColumn) ∧
        isFKColumn a.detail.columnName fk = true) := by
      intro ⟨ht, hc⟩; exact ha ⟨Or.inr ht, hc⟩
    have hb1 : (a.type == ActionDropColumn && isFKColumn a.detail.columnName fk) = false := by
      rcases hc : isFKColumn a.detail.columnName fk with _ | _
      · simp
      · rcases ht : a.type == ActionDropColumn with _ | _
        · simp
        · exact absurd ⟨by simpa using ht, hc⟩ h1
    have hb2 : ((a.type == ActionModifyColumn || a.type == ActionChangeColumn) &&
        isFKColumn a.detail.columnName fk) = false := by
      rcases hc : isFKColumn a.detail.columnName fk with _ | _
      · simp
      · rcases ht : (a.type == ActionModifyColumn || a.type == ActionChangeColumn) with _ | _
        · simp
        · refine absurd ⟨?_, hc⟩ h2
          rcases Bool.or_eq_true_iff.mp ht with h | h
          · exact Or.inl (by simpa using h)
          · exact Or.inr (by simpa using h)
    simp only [lockImpactLoop, hb1, hb2, Bool.false_eq_true, if_false]
    exact ih fun x hx => h x (by simp [hx])

/-- Every impact produced by the action loop is an exclusive metadata
lock. -/
theorem lockImpactLoop_eq_some (actions : List AlterAction) (fk : ForeignKeyMeta)
    (impact : FKLockImpact) (h : lockImpactLoop actions fk = some impact) :
    impact.metadataLock = true ∧ impact.lockLevel = LockExclusive := by
  induction actions with
  | nil => cases h
  | cons a rest ih =>
    by_cases hb1 : (a.type == ActionDropColumn && isFKColumn a.detail.columnName fk) = true
    · simp only [lockImpactLoop, hb1, if_true] at h
      cases h; exact ⟨rfl, rfl⟩
    · by_cases hb2 : ((a.type == ActionModifyColumn || a.type == ActionChangeColumn) &&
          isFKColumn a.detail.columnName fk) = true
      · simp only [lockImpactLoop, hb1, hb2, Bool.false_eq_true, if_false, if_true] at h
        cases h; exact ⟨rfl, rfl⟩
      · simp only [lockImpactLoop, Bool.eq_false_iff.mpr hb1, Bool.eq_false_iff.mpr hb2,
          Bool.false_eq_true, if_false] at h
        exact ih h

/-- The action loop finds a touching action when one is in the list. -/
theorem lockImpactLoop_isSome (actions : List AlterAction) (fk : ForeignKeyMeta)
    (a : AlterAction) (hmem : a ∈ actions) (ha : fkTouchingAction a fk) :
    (lockImpactLoop actions fk).isSome = true := by
  induction actions with
  | nil => cases hmem
  | cons b rest ih =>
    by_cases hb1 : (b.type == ActionDropColumn && isFKColumn b.detail.columnName fk) = true
    · simp [lockImpactLoop, hb1]
    · by_cases hb2 : ((b.type == ActionModifyColumn || b.type == ActionChangeColumn) &&
          isFKColumn b.detail.columnName fk) = true
      · simp [lockImpactLoop, hb1, hb2]
      · rcases List.mem_cons.mp hmem with hba | hmem2
        · exfalso
          subst hba
          rcases ha with ⟨ht | ht | ht, hc⟩
          · exact absurd (by simp [ht, hc]) hb1
          · exact absurd (by simp [ht, hc]) hb2
          · exact absurd (by simp [ht, hc]) hb2
        · simp only [lockImpactLoop, Bool.eq_false_iff.mpr hb1, Bool.eq_false_iff.mpr hb2,
            Bool.false_eq_true, if_false]
          exact ih hmem2

/-- C4: the lock impact computed for a linked table is an exclusive
metadata lock whenever some triggering action is a drop-column,
modify-column or change-column whose target column belongs to the
edge's source or referenced column set; in every other case, in both
the ancestor and descendant directions, it is a shared metadata lock
whose reason string summarizes the constraint's source and target
columns. -/
theorem determine_lock_impact_spec (direction : String) (actions : List AlterAction)
    (fk : ForeignKeyMeta) :
    ((∃ a ∈ actions, fkTouchingAction a fk) →
      (determineLockImpact direction actions fk).metadataLock = true ∧
      (determineLockImpact direction actions fk).lockLevel = LockExclusive) ∧
    ((∀ a ∈ actions, ¬fkTouchingAction a fk) →
      (direction = FKDirectionParent ∨ direction = FKDirectionChild) →
      determineLockImpact direction actions fk =
        { metadataLock := true, lockLevel := LockShared, reason := fkSharedReason fk }) := by
  constructor
  · rintro ⟨a, hmem, ha⟩
    have hsome := lockImpactLoop_isSome actions fk a hmem ha
    rcases Option.isSome_iff_exists.mp hsome with ⟨impact, himp⟩
    have := lockImpactLoop_eq_some actions fk impact himp
    simp [determineLockImpact, himp, this]
  · intro hnone hdir
    have h := lockImpactLoop_eq_none actions fk hnone
    rcases hdir with hd | hd <;> simp [determineLockImpact, h, hd, FKDirectionParent, FKDirectionChild]

/-- Witness for C4: a DROP COLUMN on an FK source column yields the
exclusive impact, and an unrelated ADD COLUMN yields the shared
default in the child direction. -/
theorem determine_lock_impact_spec_witness :
    ((determineLockImpact FKDirectionParent
        [{ type := ActionDropColumn, detail := { columnName := "user_id" } }]
        { sourceTable := "orders", sourceColumns := ["user_id"],
          referencedTable := "users", referencedColumns := ["id"] }).lockLevel =
      LockExclusive) ∧
    (determineLockImpact FKDirectionChild
        [{ type := ActionAddColumn, detail := { columnName := "nickname" } }]
        { sourceTable := "orders", sourceColumns := ["user_id"],
          referencedTable := "users", referencedColumns := ["id"] } =
      { metadataLock := true, lockLevel := LockShared,
        reason := "FK: orders.user_id → users.id" }) := by
  constructor
  · exact ((determine_lock_impact_spec FKDirectionParent
      [{ type := ActionDropColumn, detail := { columnName := "user_id" } }]
      { sourceTable := "orders", sourceColumns := ["user_id"],
        referencedTable := "users", referencedColumns := ["id"] }).1
      ⟨{ type := ActionDropColumn, detail := { columnName := "user_id" } },
        by simp, by decide⟩).2
  · exact (determine_lock_impact_spec FKDirectionChild
      [{ type := ActionAddColumn, detail := { columnName := "nickname" } }]
      { sourceTable := "orders", sourceColumns := ["user_id"],
        referencedTable := "users", referencedColumns := ["id"] }).2
      (by decide) (Or.inr rfl)

/-- C10: the FK column membership test of the lock-impact computation
compares column names case-sensitively, so an action whose target
column differs from the edge's columns only in letter case does not
trigger the exclusive impact and the default shared metadata lock is
returned, even though the Prediction Engine's rule conditions compare
case-insensitively. -/
theorem fk_column_match_case_sensitive (direction : String) (fk : ForeignKeyMeta)
    (a : AlterAction)
    (hdir : direction = FKDirectionParent ∨ direction = FKDirectionChild)
    (htype : a.type = ActionDropColumn ∨ a.type = ActionModifyColumn ∨
      a.type = ActionChangeColumn)
    (hexact : ∀ c ∈ fk.sourceColumns ++ fk.referencedColumns, c ≠ a.detail.columnName)
    (hfold : ∃ c ∈ fk.sourceColumns ++ fk.referencedColumns,
      eqFold c a.detail.columnName = true ∧ c ≠ a.detail.columnName) :
    isFKColumn a.detail.columnName fk = false ∧
    determineLockImpact direction [a] fk =
      { metadataLock := true, lockLevel := LockShared, reason := fkSharedReason fk } := by
  have hfkcol : isFKColumn a.detail.columnName fk = false := by
    have hs : ∀ c ∈ fk.sourceColumns, ¬(c == a.detail.columnName) = true := by
      intro c hc
      simpa using hexact c (List.mem_append_left _ hc)
    have hr : ∀ c ∈ fk.referencedColumns, ¬(c == a.detail.columnName) = true := by
      intro c hc
      simpa using hexact c (List.mem_append_right _ hc)
    simp only [isFKColumn, Bool.or_eq_false_iff]
    constructor <;> simp only [List.any_eq_false] <;> assumption
  refine ⟨hfkcol, ?_⟩
  exact (determine_lock_impact_spec direction [a] fk).2
    (by intro x hx
        rcases List.mem_singleton.mp hx with rfl
        intro ⟨_, hc⟩
        rw [hfkcol] at hc
        cases hc)
    hdir

/-- Witness for C10: "User_ID" differs from the FK column "user_id"
only in case, so a MODIFY COLUMN on it keeps the shared default. -/
theorem fk_column_match_case_sensitive_witness :
    isFKColumn "User_ID"
      { sourceTable := "orders", sourceColumns := ["user_id"],
        referencedTable := "users", referencedColumns := ["id"] } = false ∧
    determineLockImpact FKDirectionParent
      [{ type := ActionModifyColumn, detail := { columnName := "User_ID" } }]
      { sourceTable := "orders", sourceColumns := ["user_id"],
        referencedTable := "users", referencedColumns := ["id"] } =
      { metadataLock := true, lockLevel := LockShared,
        reason := "FK: orders.user_id → users.id" } :=
  fk_column_match_case_sensitive FKDirectionParent
    { sourceTable := "orders", sourceColumns := ["user_id"],
      referencedTable := "users", referencedColumns := ["id"] }
    { type := ActionModifyColumn, detail := { columnName := "User_ID" } }
    (Or.inl rfl) (Or.inr (Or.inl rfl)) (by decide)
    ⟨"user_id", by decide, by decide, by decide⟩

/-- A property preserved by every step of a fold is preserved by the
fold. -/
theorem foldl_preserve {α β : Type} (P : β → Prop) (f : β → α → β)
    (hstep : ∀ b a, P b → P (f b a)) :
    ∀ (l : List α) (st : β), P st → P (l.foldl f st) := by
  intro l
  induction l with
  | nil => intro st h; exact h
  | cons a t ih => intro st h; exact ih (f st a) (hstep st a h)

/-- Membership in a list of strings gives a true contains test. -/
theorem contains_of_mem {l : List String} {a : String} (h : a ∈ l) :
    l.contains a = true := by
  simpa [List.contains] using List.elem_iff.mpr h

/-- The parent traversal never removes entries from the visited set. -/
theorem resolveParent_visited_mono (r : Resolver) (actions : List AlterAction) :
    ∀ (fuel : Nat) (fk : ForeignKeyMeta) (depth : Nat) (st : ResolveState) (x : String),
      x ∈ st.visited → x ∈ (resolveParent r actions fuel fk depth st).visited := by
  intro fuel
  induction fuel with
  | zero => intro fk depth st x h; exact h
  | succ fuel ih =>
    intro fk depth st x h
    simp only [resolveParent]
    split
    · exact h
    · split
      · exact h
      · split
        · exact List.mem_append_left _ h
        · refine foldl_preserve (fun s => x ∈ s.visited) _
            (fun b a hb => ih a (depth + 1) b x hb) _ _ ?_
          exact List.mem_append_left _ h

/-- The child traversal never removes entries from the visited set. -/
theorem resolveChild_visited_mono (r : Resolver) (actions : List AlterAction) :
    ∀ (fuel : Nat) (fk : ForeignKeyMeta) (depth : Nat) (st : ResolveState) (x : String),
      x ∈ st.visited → x ∈ (resolveChild r actions fuel fk depth st).visited := by
  intro fuel
  induction fuel with
  | zero => intro fk depth st x h; exact h
  | succ fuel ih =>
    intro fk depth st x h
    simp only [resolveChild]
    split
    · exact h
    · split
      · exact h
      · split
        · exact List.mem_append_left _ h
        · refine foldl_preserve (fun s => x ∈ s.visited) _
            (fun b a hb => ih a (depth + 1) b x hb) _ _ ?_
          exact List.mem_append_left _ h

/-- Within the depth bound, visiting an unvisited parent table adds its
qualified identity to the visited set. -/
theorem resolveParent_adds_key (r : Resolver) (actions : List AlterAction)
    (fuel : Nat) (fk : ForeignKeyMeta) (depth : Nat) (st : ResolveState)
    (hd : ¬ r.maxDepth < depth)
    (hnv : st.visited.contains (qualifiedName fk.referencedSchema fk.referencedTable) = false) :
    qualifiedName fk.referencedSchema fk.referencedTable ∈
      (resolveParent r actions (fuel + 1) fk depth st).visited := by
  simp only [resolveParent, if_neg hd, hnv, Bool.false_eq_true, if_false]
  split
  · simp
  · refine foldl_preserve (fun s => _ ∈ s.visited) _
      (fun b a hb => resolveParent_visited_mono r actions fuel a (depth + 1) b _ hb) _ _ ?_
    simp

/-- Within the depth bound, reaching an already-visited parent table
appends the circular-reference warning and changes nothing else. -/
theorem resolveParent_visited_warn (r : Resolver) (actions : List AlterAction)
    (fuel : Nat) (fk : ForeignKeyMeta) (depth : Nat) (st : ResolveState)
    (hd : depth ≤ r.maxDepth)
    (hv : st.visited.contains (qualifiedName fk.referencedSchema fk.referencedTable) = true) :
    resolveParent r actions (fuel + 1) fk depth st =
      { st with graph := { st.graph with warnings := st.graph.warnings ++
          ["Circular FK reference detected: " ++
            qualifiedName fk.referencedSchema fk.referencedTable ++ " (skipping)"] } } := by
  simp only [resolveParent, if_neg (Nat.not_lt.mpr hd), hv, if_true]

/-- Within the depth bound, reaching an already-visited child table
appends the circular-reference warning and changes nothing else. -/
theorem resolveChild_visited_warn (r : Resolver) (actions : List AlterAction)
    (fuel : Nat) (fk : ForeignKeyMeta) (depth : Nat) (st : ResolveState)
    (hd : depth ≤ r.maxDepth)
    (hv : st.visited.contains (qualifiedName fk.sourceSchema fk.sourceTable) = true) :
    resolveChild r actions (fuel + 1) fk depth st =
      { st with graph := { st.graph with warnings := st.graph.warnings ++
          ["Circular FK reference detected: " ++
            qualifiedName fk.sourceSchema fk.sourceTable ++ " (skipping)"] } } := by
  simp only [resolveChild, if_neg (Nat.not_lt.mpr hd), hv, if_true]

/-- C6: whenever the traversal reaches a qualified table identity that
is already in the visited set (seeded with the root) while inside the
depth bound, it appends a circular-reference warning and stops that
branch, returning the rest of the state unchanged — in both
directions; and on the two-table mutual reference fixture (a
references b and b references a), resolve from either root returns
(it is total by construction) with at least one circular-reference
warning, for every positive depth bound. -/
theorem resolve_circular_reference :
    (∀ (r : Resolver) (actions : List AlterAction) (fuel : Nat) (fk : ForeignKeyMeta)
        (depth : Nat) (st : ResolveState), depth ≤ r.maxDepth →
      st.visited.contains (qualifiedName fk.referencedSchema fk.referencedTable) = true →
      resolveParent r actions (fuel + 1) fk depth st =
        { st with graph := { st.graph with warnings := st.graph.warnings ++
            ["Circular FK reference detected: " ++
              qualifiedName fk.referencedSchema fk.referencedTable ++ " (skipping)"] } }) ∧
    (∀ (r : Resolver) (actions : List AlterAction) (fuel : Nat) (fk : ForeignKeyMeta)
        (depth : Nat) (st : ResolveState), depth ≤ r.maxDepth →
      st.visited.contains (qualifiedName fk.sourceSchema fk.sourceTable) = true →
      resolveChild r actions (fuel + 1) fk depth st =
        { st with graph := { st.graph with warnings := st.graph.warnings ++
            ["Circular FK reference detected: " ++
              qualifiedName fk.sourceSchema fk.sourceTable ++ " (skipping)"] } }) ∧
    (∀ m : Nat, 1 ≤ ((resolve (mutualResolver (m + 1)) "" "a" []).1.warnings).length) ∧
    (∀ m : Nat, 1 ≤ ((resolve (mutualResolver (m + 1)) "" "b" []).1.warnings).length) := by
  refine ⟨resolveParent_visited_warn, resolveChild_visited_warn, ?_, ?_⟩
  · intro m
    have hd1 : ¬ (mutualResolver (m + 1)).maxDepth < 1 :=
      Nat.not_lt.mpr (Nat.succ_le_succ (Nat.zero_le m))
    have e1 : resolve (mutualResolver (m + 1)) "" "a" [] =
        ((resolveChild (mutualResolver (m + 1)) [] (m + 1 + 1) fkBA 1
          (resolveParent (mutualResolver (m + 1)) [] (m + 1 + 1) fkAB 1
            { graph := { root := "a", maxDepth := m + 1 }, visited := ["a"] })).graph,
          none) := rfl
    have hb : qualifiedName fkBA.sourceSchema fkBA.sourceTable ∈
        (resolveParent (mutualResolver (m + 1)) [] (m + 1 + 1) fkAB 1
          { graph := { root := "a", maxDepth := m + 1 }, visited := ["a"] }).visited :=
      resolveParent_adds_key (mutualResolver (m + 1)) [] (m + 1) fkAB 1
        { graph := { root := "a", maxDepth := m + 1 }, visited := ["a"] } hd1 rfl
    have hw := resolveChild_visited_warn (mutualResolver (m + 1)) [] (m + 1) fkBA 1
      (resolveParent (mutualResolver (m + 1)) [] (m + 1 + 1) fkAB 1
        { graph := { root := "a", maxDepth := m + 1 }, visited := ["a"] })
      (Nat.succ_le_succ (Nat.zero_le m)) (contains_of_mem hb)
    rw [e1, hw]
    simp
  · intro m
    have hd1 : ¬ (mutualResolver (m + 1)).maxDepth < 1 :=
      Nat.not_lt.mpr (Nat.succ_le_succ (Nat.zero_le m))
    have e1 : resolve (mutualResolver (m + 1)) "" "b" [] =
        ((resolveChild (mutualResolver (m + 1)) [] (m + 1 + 1) fkAB 1
          (resolveParent (mutualResolver (m + 1)) [] (m + 1 + 1) fkBA 1
            { graph := { root := "b", maxDepth := m + 1 }, visited := ["b"] })).graph,
          none) := rfl
    have hb : qualifiedName fkAB.sourceSchema fkAB.sourceTable ∈
        (resolveParent (mutualResolver (m + 1)) [] (m + 1 + 1) fkBA 1
          { graph := { root := "b", maxDepth := m + 1 }, visited := ["b"] }).visited :=
      resolveParent_adds_key (mutualResolver (m + 1)) [] (m + 1) fkBA 1
        { graph := { root := "b", maxDepth := m + 1 }, visited := ["b"] } hd1 rfl
    have hw := resolveChild_visited_warn (mutualResolver (m + 1)) [] (m + 1) fkAB 1
      (resolveParent (mutualResolver (m + 1)) [] (m + 1 + 1) fkBA 1
        { graph := { root := "b", maxDepth := m + 1 }, visited := ["b"] })
      (Nat.succ_le_succ (Nat.zero_le m)) (contains_of_mem hb)
    rw [e1, hw]
    simp

/-- Witness for C6: reaching the already-visited table a at depth 1
appends exactly the circular-reference warning. -/
theorem resolve_circular_reference_witness :
    resolveParent (mutualResolver 5) [] 3 fkBA 1
      { graph := { root := "a", maxDepth := 5 }, visited := ["a", "b"] } =
      { graph :=
          { root := "a"
            maxDepth := 5
            warnings := ["Circular FK reference detected: a (skipping)"] }
        visited := ["a", "b"] } :=
  resolve_circular_reference.1 (mutualResolver 5) [] 2 fkBA 1
    { graph := { root := "a", maxDepth := 5 }, visited := ["a", "b"] }
    (by decide) (by decide)

/-- Non-membership gives a false contains test. -/
theorem contains_eq_false_of_not_mem {l : List String} {a : String} (h : a ∉ l) :
    l.contains a = false := by
  cases hc : l.contains a with
  | false => rfl
  | true =>
    exact absurd (List.elem_iff.mp hc) h

/-- Beyond the depth bound the parent traversal returns its state
unchanged, for any fuel. -/
theorem resolveParent_overshoot (r : Resolver) (actions : List AlterAction)
    (fuel : Nat) (fk : ForeignKeyMeta) (depth : Nat) (st : ResolveState)
    (hd : r.maxDepth < depth) :
    resolveParent r actions fuel fk depth st = st := by
  cases fuel with
  | zero => rfl
  | succ fuel => simp [resolveParent, hd]

/-- Beyond the depth bound the child traversal returns its state
unchanged, for any fuel. -/
theorem resolveChild_overshoot (r : Resolver) (actions : List AlterAction)
    (fuel : Nat) (fk : ForeignKeyMeta) (depth : Nat) (st : ResolveState)
    (hd : r.maxDepth < depth) :
    resolveChild r actions fuel fk depth st = st := by
  cases fuel with
  | zero => rfl
  | succ fuel => simp [resolveChild, hd]

/-- The parent traversal records parent edges only at depths between
its call depth (at least 1) and the depth bound. -/
theorem resolveParent_parents_bound (r : Resolver) (actions : List AlterAction) :
    ∀ (fuel : Nat) (fk : ForeignKeyMeta) (depth : Nat) (st : ResolveState),
      1 ≤ depth →
      (∀ rel ∈ st.graph.parents, 1 ≤ rel.depth ∧ rel.depth ≤ r.maxDepth) →
      ∀ rel ∈ (resolveParent r actions fuel fk depth st).graph.parents,
        1 ≤ rel.depth ∧ rel.depth ≤ r.maxDepth := by
  intro fuel
  induction fuel with
  | zero => intro fk depth st _ hinv; exact hinv
  | succ fuel ih =>
    intro fk depth st hdepth hinv
    simp only [resolveParent]
    split
    · exact hinv
    · rename_i hguard
      split
      · exact hinv
      · have hbound : ∀ rel ∈ st.graph.parents ++
            [{ table := qualifiedName fk.referencedSchema fk.referencedTable
               constraint := fk
               direction := FKDirectionParent
               depth := depth
               lockImpact := determineLockImpact FKDirectionParent actions fk }],
            1 ≤ rel.depth ∧ rel.depth ≤ r.maxDepth := by
          intro rel hmem
          rcases List.mem_append.mp hmem with hmem | hmem
          · exact hinv rel hmem
          · rcases List.mem_singleton.mp hmem with rfl
            exact ⟨hdepth, Nat.not_lt.mp hguard⟩
        split
        · exact hbound
        · refine foldl_preserve
            (fun s => ∀ rel ∈ s.graph.parents, 1 ≤ rel.depth ∧ rel.depth ≤ r.maxDepth) _
            (fun b a hb => ih a (depth + 1) b (Nat.le_succ_of_le hdepth) hb) _ _ ?_
          exact hbound

/-- The child traversal records child edges only at depths between its
call depth (at least 1) and the depth bound. -/
theorem resolveChild_children_bound (r : Resolver) (actions : List AlterAction) :
    ∀ (fuel : Nat) (fk : ForeignKeyMeta) (depth : Nat) (st : ResolveState),
      1 ≤ depth →
      (∀ rel ∈ st.graph.children, 1 ≤ rel.depth ∧ rel.depth ≤ r.maxDepth) →
      ∀ rel ∈ (resolveChild r actions fuel fk depth st).graph.children,
        1 ≤ rel.depth ∧ rel.depth ≤ r.maxDepth := by
  intro fuel
  induction fuel with
  | zero => intro fk depth st _ hinv; exact hinv
  | succ fuel ih =>
    intro fk depth st hdepth hinv
    simp only [resolveChild]
    split
    · exact hinv
    · rename_i hguard
      split
      · exact hinv
      · have hbound : ∀ rel ∈ st.graph.children ++
            [{ table := qualifiedName fk.sourceSchema fk.sourceTable
               constraint := fk
               direction := FKDirectionChild
               depth := depth
               lockImpact := determineLockImpact FKDirectionChild actions fk }],
            1 ≤ rel.depth ∧ rel.depth ≤ r.maxDepth := by
          intro rel hmem
          rcases List.mem_append.mp hmem with hmem | hmem
          · exact hinv rel hmem
          · rcases List.mem_singleton.mp hmem with rfl
            exact ⟨hdepth, Nat.not_lt.mp hguard⟩
        split
        · exact hbound
        · refine foldl_preserve
            (fun s => ∀ rel ∈ s.graph.children, 1 ≤ rel.depth ∧ rel.depth ≤ r.maxDepth) _
            (fun b a hb => ih a (depth + 1) b (Nat.le_succ_of_le hdepth) hb) _ _ ?_
          exact hbound

/-- The parent traversal never touches the children list. -/
theorem resolveParent_children_eq (r : Resolver) (actions : List AlterAction) :
    ∀ (fuel : Nat) (fk : ForeignKeyMeta) (depth : Nat) (st : ResolveState),
      (resolveParent r actions fuel fk depth st).graph.children = st.graph.children := by
  intro fuel
  induction fuel with
  | zero => intro fk depth st; rfl
  | succ fuel ih =>
    intro fk depth st
    simp only [resolveParent]
    split
    · rfl
    · split
      · rfl
      · split
        · rfl
        · refine foldl_preserve (fun s => s.graph.children = st.graph.children) _
            (fun b a hb => (ih a (depth + 1) b).trans hb) _ _ ?_
          rfl

/-- The child traversal never touches the parents list. -/
theorem resolveChild_parents_eq (r : Resolver) (actions : List AlterAction) :
    ∀ (fuel : Nat) (fk : ForeignKeyMeta) (depth : Nat) (st : ResolveState),
      (resolveChild r actions fuel fk depth st).graph.parents = st.graph.parents := by
  intro fuel
  induction fuel with
  | zero => intro fk depth st; rfl
  | succ fuel ih =>
    intro fk depth st
    simp only [resolveChild]
    split
    · rfl
    · split
      · rfl
      · split
        · rfl
        · refine foldl_preserve (fun s => s.graph.parents = st.graph.parents) _
            (fun b a hb => (ih a (depth + 1) b).trans hb) _ _ ?_
          rfl

/-- The length of the i-th chain table name is i. -/
theorem chainName_length (i : Nat) : (chainName i).length = i := by
  simp [chainName, String.length]

theorem chainName_inj {i j : Nat} (h : chainName i = chainName j) : i = j := by
  have hlen := congrArg String.length h
  simpa [chainName_length] using hlen

theorem chain_parent_count (maxDepth n : Nat) (actions : List AlterAction) :
    ∀ (fuel k : Nat) (st : ResolveState),
      maxDepth + 1 - k ≤ fuel → k < n →
      (∀ j : Nat, chainName j ∈ st.visited ↔ j ≤ k) →
      ((resolveParent (chainResolver maxDepth n) actions fuel (chainFK k) (k + 1)
          st).graph.parents).length
        = st.graph.parents.length + min (maxDepth - k) (n - k) := by
  intro fuel
  induction fuel with
  | zero =>
    intro k st hfuel hk hvis
    have h1 : maxDepth - k = 0 := by omega
    simp [resolveParent, h1]
  | succ fuel ih =>
    intro k st hfuel hk hvis
    by_cases hguard : maxDepth < k + 1
    · have h1 : maxDepth - k = 0 := by omega
      have e : resolveParent (chainResolver maxDepth n) actions (fuel + 1) (chainFK k)
          (k + 1) st = st := by
        simp [resolveParent, chainResolver, hguard]
      rw [e, h1]
      simp
    · have hkd : k + 1 ≤ maxDepth := Nat.not_lt.mp hguard
      have hnv : st.visited.contains
          (qualifiedName (chainFK k).referencedSchema (chainFK k).referencedTable) = false := by
        apply contains_eq_false_of_not_mem
        show chainName (k + 1) ∉ st.visited
        intro hmem
        have := (hvis (k + 1)).mp hmem
        omega
      have hprov : (chainResolver maxDepth n).provider (chainFK k).referencedSchema
          (chainFK k).referencedTable = some (chainMeta n (k + 1)) := by
        show chainProvider n "" (chainName (k + 1)) = some (chainMeta n (k + 1))
        simp [chainProvider, chainName_length, Nat.succ_le_of_lt hk]
      have hvis2 : ∀ j : Nat, chainName j ∈ st.visited ++
          [qualifiedName (chainFK k).referencedSchema (chainFK k).referencedTable] ↔
          j ≤ k + 1 := by
        intro j
        show chainName j ∈ st.visited ++ [chainName (k + 1)] ↔ j ≤ k + 1
        rw [List.mem_append, List.mem_singleton, hvis j]
        constructor
        · rintro (hj | hj)
          · omega
          · have := chainName_inj hj
            omega
        · intro hj
          rcases Nat.lt_or_ge k j with hjk | hjk
          · have hj1 : j = k + 1 := by omega
            exact Or.inr (by rw [hj1])
          · exact Or.inl hjk
      by_cases hkn : k + 1 < n
      · have hfk : (chainMeta n (k + 1)).foreignKeys = [chainFK (k + 1)] := by
          simp [chainMeta, hkn]
        have e : resolveParent (chainResolver maxDepth n) actions (fuel + 1) (chainFK k)
            (k + 1) st =
            resolveParent (chainResolver maxDepth n) actions fuel (chainFK (k + 1))
              (k + 1 + 1)
              { st with
                graph := { st.graph with parents := st.graph.parents ++
                  [{ table := qualifiedName (chainFK k).referencedSchema
                        (chainFK k).referencedTable
                     constraint := chainFK k
                     direction := FKDirectionParent
                     depth := k + 1
                     lockImpact := determineLockImpact FKDirectionParent actions
                       (chainFK k) }] }
                visited := st.visited ++
                  [qualifiedName (chainFK k).referencedSchema (chainFK k).referencedTable] } := by
          simp only [resolveParent,
            if_neg (show ¬ (chainResolver maxDepth n).maxDepth < k + 1 from hguard),
            hnv, Bool.false_eq_true, if_false, hprov, hfk,
            List.foldl_cons, List.foldl_nil]
        rw [e, ih (k + 1) _ (by omega) hkn hvis2]
        simp only [List.length_append, List.length_cons, List.length_nil]
        omega
      · have hfk : (chainMeta n (k + 1)).foreignKeys = [] := by
          simp [chainMeta, hkn]
        have e : resolveParent (chainResolver maxDepth n) actions (fuel + 1) (chainFK k)
            (k + 1) st =
            { st with
              graph := { st.graph with parents := st.graph.parents ++
                [{ table := qualifiedName (chainFK k).referencedSchema
                      (chainFK k).referencedTable
                   constraint := chainFK k
                   direction := FKDirectionParent
                   depth := k + 1
                   lockImpact := determineLockImpact FKDirectionParent actions
                     (chainFK k) }] }
              visited := st.visited ++
                [qualifiedName (chainFK k).referencedSchema (chainFK k).referencedTable] } := by
          simp only [resolveParent,
            if_neg (show ¬ (chainResolver maxDepth n).maxDepth < k + 1 from hguard),
            hnv, Bool.false_eq_true, if_false, hprov, hfk, List.foldl_nil]
        rw [e]
        simp only [List.length_append, List.length_cons, List.length_nil]
        omega


theorem chain_resolve_count (maxDepth n : Nat) (h : maxDepth < n) :
    ((resolve (chainResolver maxDepth n) "" (chainName 0) []).1.parents).length
      = maxDepth := by
  have hn0 : 0 < n := by omega
  have hprov0 : chainProvider n "" (chainName 0) = some (chainMeta n 0) := by
    simp [chainProvider, chainName_length]
  have hfk0 : (chainMeta n 0).foreignKeys = [chainFK 0] := by
    simp [chainMeta, hn0]
  have hrb0 : (chainMeta n 0).referencedBy = ([] : List ForeignKeyMeta) := rfl
  have hvis0 : ∀ j : Nat, chainName j ∈
      ({ graph := { root := qualifiedName "" (chainName 0), maxDepth := maxDepth }
         visited := [qualifiedName "" (chainName 0)] } : ResolveState).visited ↔ j ≤ 0 := by
    intro j
    show chainName j ∈ [chainName 0] ↔ j ≤ 0
    rw [List.mem_singleton]
    constructor
    · intro h2
      have := chainName_inj h2
      omega
    · intro h2
      have hj : j = 0 := by omega
      rw [hj]
  have hcount := chain_parent_count maxDepth n [] (maxDepth + 1) 0 _ (by omega) hn0 hvis0
  have e : (resolve (chainResolver maxDepth n) "" (chainName 0) []).1 =
      (resolveParent (chainResolver maxDepth n) [] (maxDepth + 1) (chainFK 0) (0 + 1)
        { graph := { root := qualifiedName "" (chainName 0), maxDepth := maxDepth }
          visited := [qualifiedName "" (chainName 0)] }).graph := by
    simp only [resolve, chainResolver, Bool.not_true, Bool.false_eq_true, if_false,
      hprov0, hfk0, hrb0, List.foldl_cons, List.foldl_nil]
  rw [e, hcount]
  simp
  omega


theorem resolve_parents_depth_bound (r : Resolver) (schema table : String)
    (actions : List AlterAction) :
    ∀ rel ∈ (resolve r schema table actions).1.parents,
      1 ≤ rel.depth ∧ rel.depth ≤ r.maxDepth := by
  by_cases hfk : r.fkChecks
  · cases hp : r.provider schema table with
    | none =>
      intro rel hmem
      simp [resolve, hfk, hp] at hmem
    | some tm =>
      have hchild : ∀ (l : List ForeignKeyMeta) (s : ResolveState),
          (l.foldl (fun s fk => resolveChild r actions (r.maxDepth + 1) fk 1 s)
            s).graph.parents = s.graph.parents :=
        fun l s => foldl_preserve (fun x => x.graph.parents = s.graph.parents) _
          (fun b a hb => (resolveChild_parents_eq r actions _ a 1 b).trans hb) l s rfl
      have e : (resolve r schema table actions).1.parents =
          (tm.foreignKeys.foldl (fun s fk => resolveParent r actions (r.maxDepth + 1) fk 1 s)
            { graph := { root := qualifiedName schema table, maxDepth := r.maxDepth }
              visited := [qualifiedName schema table] }).graph.parents := by
        simp only [resolve, hfk, Bool.not_true, Bool.false_eq_true, if_false, hp]
        rw [hchild]
      rw [e]
      refine foldl_preserve
        (fun x => ∀ rel ∈ x.graph.parents, 1 ≤ rel.depth ∧ rel.depth ≤ r.maxDepth) _
        (fun b a hb => resolveParent_parents_bound r actions _ a 1 b (Nat.le_refl 1) hb)
        _ _ ?_
      intro rel hmem
      exact absurd hmem (List.not_mem_nil rel)
  · intro rel hmem
    simp [resolve, hfk] at hmem

theorem resolve_children_depth_bound (r : Resolver) (schema table : String)
    (actions : List AlterAction) :
    ∀ rel ∈ (resolve r schema table actions).1.children,
      1 ≤ rel.depth ∧ rel.depth ≤ r.maxDepth := by
  by_cases hfk : r.fkChecks
  · cases hp : r.provider schema table with
    | none =>
      intro rel hmem
      simp [resolve, hfk, hp] at hmem
    | some tm =>
      have hparfold : ∀ (l : List ForeignKeyMeta) (s : ResolveState),
          (l.foldl (fun s fk => resolveParent r actions (r.maxDepth + 1) fk 1 s)
            s).graph.children = s.graph.children :=
        fun l s => foldl_preserve (fun x => x.graph.children = s.graph.children) _
          (fun b a hb => (resolveParent_children_eq r actions _ a 1 b).trans hb) l s rfl
      have e : (resolve r schema table actions).1.children =
          (tm.referencedBy.foldl (fun s fk => resolveChild r actions (r.maxDepth + 1) fk 1 s)
            (tm.foreignKeys.foldl (fun s fk => resolveParent r actions (r.maxDepth + 1) fk 1 s)
              { graph := { root := qualifiedName schema table, maxDepth := r.maxDepth }
                visited := [qualifiedName schema table] })).graph.children := by
        simp only [resolve, hfk, Bool.not_true, Bool.false_eq_true, if_false, hp]
      rw [e]
      refine foldl_preserve
        (fun x => ∀ rel ∈ x.graph.children, 1 ≤ rel.depth ∧ rel.depth ≤ r.maxDepth) _
        (fun b a hb => resolveChild_children_bound r actions _ a 1 b (Nat.le_refl 1) hb)
        _ _ ?_
      simp only [hparfold]
      intro rel hmem
      exact absurd hmem (List.not_mem_nil rel)
  · intro rel hmem
    simp [resolve, hfk] at hmem

/-- C5: the FK traversal is total (the depth guard bounds recursion),
stops without recording or warning as soon as the depth exceeds
maxDepth, records edges only at depths 1 through maxDepth inclusive,
and on a linear chain of n foreign-key edges longer than maxDepth
records exactly maxDepth edges on that branch. -/
theorem resolve_depth_bounded_and_chain :
    (∀ (r : Resolver) (actions : List AlterAction) (fuel : Nat) (fk : ForeignKeyMeta)
        (depth : Nat) (st : ResolveState), r.maxDepth < depth →
      resolveParent r actions fuel fk depth st = st) ∧
    (∀ (r : Resolver) (actions : List AlterAction) (fuel : Nat) (fk : ForeignKeyMeta)
        (depth : Nat) (st : ResolveState), r.maxDepth < depth →
      resolveChild r actions fuel fk depth st = st) ∧
    (∀ (r : Resolver) (schema table : String) (actions : List AlterAction),
      ∀ rel ∈ (resolve r schema table actions).1.parents ++
          (resolve r schema table actions).1.children,
        1 ≤ rel.depth ∧ rel.depth ≤ r.maxDepth) ∧
    (∀ maxDepth n : Nat, maxDepth < n →
      ((resolve (chainResolver maxDepth n) "" (chainName 0) []).1.parents).length
        = maxDepth) := by
  refine ⟨resolveParent_overshoot, resolveChild_overshoot, ?_, chain_resolve_count⟩
  intro r schema table actions rel hmem
  rcases List.mem_append.mp hmem with hmem | hmem
  · exact resolve_parents_depth_bound r schema table actions rel hmem
  · exact resolve_children_depth_bound r schema table actions rel hmem

/-- Witness for C5: a chain of 5 edges with maxDepth 2 records exactly
2 parent edges. -/
theorem resolve_depth_bounded_and_chain_witness :
    ((resolve (chainResolver 2 5) "" (chainName 0) []).1.parents).length = 2 :=
  resolve_depth_bounded_and_chain.2.2.2 2 5 (by decide)

/-- Case-insensitively equal type strings have the same extracted
VARCHAR length (extraction only inspects the lowered characters). -/
theorem extract_eq_of_eqFold {s t : String} (h : eqFold s t = true) :
    extractVarcharLength s = extractVarcharLength t := by
  have hlow : asciiLower s = asciiLower t := by
    simpa [eqFold] using h
  simp [extractVarcharLength, hlow]

/-- A modify-column action that crosses the VARCHAR length-encoding
boundary (and is neither a generated-column reorder nor an ENUM/SET
type) selects the MODIFY COLUMN type-change rule. -/
theorem findRule_modify_type_change (d : ActionDetail) (m : TableMeta)
    (col : ColumnMeta) (oldLen newLen : Int)
    (hcol : findColumn (some m) d.columnName = some col)
    (hold : extractVarcharLength col.columnType = oldLen)
    (hnew : extractVarcharLength d.columnType = newLen)
    (h1 : 1 ≤ oldLen) (h2 : oldLen ≤ 255) (h3 : 256 ≤ newLen)
    (hEnum : isEnumOrSetType (asciiUpper d.columnType) = false)
    (hGen : d.position = "" ∨ isGeneratedColumn col = false) :
    findRule defaultRules { type := ActionModifyColumn, detail := d } (some m) =
      some { actionType := ActionModifyColumn
             description := "MODIFY COLUMN (type change)"
             condition := fun a tm =>
               match findColumn tm a.detail.columnName with
               | none => true
               | some col => !eqFold col.columnType a.detail.columnType
             algorithm := AlgorithmCopy
             lock := LockShared
             tableRebuild := true
             warnings := ["SHARED lock — DML writes blocked during execution",
                          "Table rebuild required — full table copy",
                          "Consider using pt-online-schema-change or gh-ost for large tables"] } := by
  have hneq : eqFold col.columnType d.columnType = false := by
    cases he : eqFold col.columnType d.columnType with
    | false => rfl
    | true =>
      have := extract_eq_of_eqFold he
      rw [hold, hnew] at this
      omega
  have hne0 : ¬ (newLen ≤ 0) := by omega
  have hnlt : ¬ (newLen ≤ oldLen) := by omega
  have hn255 : ¬ (newLen ≤ 255) := by omega
  have hno256 : ¬ (256 ≤ oldLen) := by omega
  rw [defaultRules, List.append_assoc, List.append_assoc, List.append_assoc,
    findRule_append_skip columnRules _ _ _
      (by show ∀ r ∈ columnRules, (r.actionType == ActionModifyColumn) = false
          decide)]
  rcases hGen with hg | hg
  · simp [findRule, modifyRules, List.find?, hcol, hneq, hEnum, hold, hnew,
      hne0, hnlt, hn255, hno256, h2, hg]
  · simp [findRule, modifyRules, List.find?, hcol, hneq, hEnum, hold, hnew,
      hne0, hnlt, hn255, hno256, h2, hg, ite_self]

/-- A modify-column action that grows a VARCHAR within the same
length-encoding boundary selects the VARCHAR extension rule. -/
theorem findRule_modify_varchar_ext (d : ActionDetail) (m : TableMeta)
    (col : ColumnMeta) (oldLen newLen : Int)
    (hcol : findColumn (some m) d.columnName = some col)
    (hold : extractVarcharLength col.columnType = oldLen)
    (hnew : extractVarcharLength d.columnType = newLen)
    (h1 : 1 ≤ oldLen) (hlt : oldLen < newLen)
    (hbnd : (oldLen ≤ 255 ∧ newLen ≤ 255) ∨ (256 ≤ oldLen ∧ 256 ≤ newLen))
    (hEnum : isEnumOrSetType (asciiUpper d.columnType) = false)
    (hGen : d.position = "" ∨ isGeneratedColumn col = false) :
    findRule defaultRules { type := ActionModifyColumn, detail := d } (some m) =
      some { actionType := ActionModifyColumn
             description := "MODIFY COLUMN (VARCHAR extension)"
             condition := fun a tm =>
               let newLen := extractVarcharLength a.detail.columnType
               if newLen ≤ 0 then false
               else
                 match findColumn tm a.detail.columnName with
                 | none => false
                 | some col =>
                   let oldLen := extractVarcharLength col.columnType
                   if oldLen ≤ 0 || newLen ≤ oldLen then false
                   else (oldLen ≤ 255 && newLen ≤ 255) || (oldLen ≥ 256 && newLen ≥ 256)
             algorithm := AlgorithmInplace
             lock := LockNone
             tableRebuild := false
             notes := ["VARCHAR extension within same length-byte boundary — in-place, metadata-only",
                       "Crossing the 255→256 byte boundary requires ALGORITHM=COPY (length byte changes from 1 to 2)"] } := by
  have hne0 : ¬ (newLen ≤ 0) := by omega
  have hno0 : ¬ (oldLen ≤ 0) := by omega
  have hnlt : ¬ (newLen ≤ oldLen) := by omega
  rw [defaultRules, List.append_assoc, List.append_assoc, List.append_assoc,
    findRule_append_skip columnRules _ _ _
      (by show ∀ r ∈ columnRules, (r.actionType == ActionModifyColumn) = false
          decide)]
  rcases hGen with hg | hg <;> rcases hbnd with ⟨hb1, hb2⟩ | ⟨hb1, hb2⟩ <;>
    simp [findRule, modifyRules, List.find?, hcol, hEnum, hold, hnew,
      hne0, hno0, hnlt, hb1, hb2, hg, ite_self]

/-- C9: on an InnoDB snapshot, a modify-column action that grows a
VARCHAR across the 255/256 length-encoding boundary (matching neither
the generated-column reorder rule nor the ENUM/SET rule) is predicted
COPY with a SHARED lock, a table rebuild and risk CRITICAL, while
growth that stays within the same boundary is predicted INPLACE with
no rebuild. -/
theorem predict_modify_varchar_boundary :
    (∀ (d : ActionDetail) (m : TableMeta) (col : ColumnMeta) (oldLen newLen : Int),
      eqFold m.engine "InnoDB" = true →
      findColumn (some m) d.columnName = some col →
      extractVarcharLength col.columnType = oldLen →
      extractVarcharLength d.columnType = newLen →
      1 ≤ oldLen → oldLen ≤ 255 → 256 ≤ newLen →
      isEnumOrSetType (asciiUpper d.columnType) = false →
      (d.position = "" ∨ isGeneratedColumn col = false) →
      predict { type := ActionModifyColumn, detail := d } (some m) =
        { actionType := ActionModifyColumn
          description := "MODIFY COLUMN (type change)"
          algorithm := AlgorithmCopy
          lock := LockShared
          tableRebuild := true
          riskLevel := RiskCritical
          warnings := ["SHARED lock — DML writes blocked during execution",
                       "Table rebuild required — full table copy",
                       "Consider using pt-online-schema-change or gh-ost for large tables"] }) ∧
    (∀ (d : ActionDetail) (m : TableMeta) (col : ColumnMeta) (oldLen newLen : Int),
      eqFold m.engine "InnoDB" = true →
      findColumn (some m) d.columnName = some col →
      extractVarcharLength col.columnType = oldLen →
      extractVarcharLength d.columnType = newLen →
      1 ≤ oldLen → oldLen < newLen →
      ((oldLen ≤ 255 ∧ newLen ≤ 255) ∨ (256 ≤ oldLen ∧ 256 ≤ newLen)) →
      isEnumOrSetType (asciiUpper d.columnType) = false →
      (d.position = "" ∨ isGeneratedColumn col = false) →
      predict { type := ActionModifyColumn, detail := d } (some m) =
        { actionType := ActionModifyColumn
          description := "MODIFY COLUMN (VARCHAR extension)"
          algorithm := AlgorithmInplace
          lock := LockNone
          tableRebuild := false
          riskLevel := RiskMedium
          notes := ["VARCHAR extension within same length-byte boundary — in-place, metadata-only",
                    "Crossing the 255→256 byte boundary requires ALGORITHM=COPY (length byte changes from 1 to 2)"] }) := by
  constructor
  · intro d m col oldLen newLen hInno hcol hold hnew h1 h2 h3 hEnum hGen
    have hfind := findRule_modify_type_change d m col oldLen newLen
      hcol hold hnew h1 h2 h3 hEnum hGen
    simp [predict, nonInnoDB, hInno, hfind, calculateRisk, AlgorithmCopy,
      AlgorithmInplace, AlgorithmInstant, LockShared, LockNone, LockExclusive]
  · intro d m col oldLen newLen hInno hcol hold hnew h1 hlt hbnd hEnum hGen
    have hfind := findRule_modify_varchar_ext d m col oldLen newLen
      hcol hold hnew h1 hlt hbnd hEnum hGen
    simp [predict, nonInnoDB, hInno, hfind, calculateRisk, AlgorithmCopy,
      AlgorithmInplace, AlgorithmInstant, LockShared, LockNone, LockExclusive]

/-- Witness for C9: growing email from varchar(255) to varchar(256)
crosses the boundary (COPY/SHARED/CRITICAL); growing name from
varchar(100) to varchar(200) stays within it (INPLACE, no rebuild). -/
theorem predict_modify_varchar_boundary_witness :
    (predict
        { type := ActionModifyColumn
          detail := { columnName := "email", columnType := "varchar(256)" } }
        (some { engine := "InnoDB"
                columns := [{ name := "email", columnType := "varchar(255)" }] }) =
      { actionType := ActionModifyColumn
        description := "MODIFY COLUMN (type change)"
        algorithm := AlgorithmCopy
        lock := LockShared
        tableRebuild := true
        riskLevel := RiskCritical
        warnings := ["SHARED lock — DML writes blocked during execution",
                     "Table rebuild required — full table copy",
                     "Consider using pt-online-schema-change or gh-ost for large tables"] }) ∧
    (predict
        { type := ActionModifyColumn
          detail := { columnName := "name", columnType := "varchar(200)" } }
        (some { engine := "InnoDB"
                columns := [{ name := "name", columnType := "varchar(100)" }] }) =
      { actionType := ActionModifyColumn
        description := "MODIFY COLUMN (VARCHAR extension)"
        algorithm := AlgorithmInplace
        lock := LockNone
        tableRebuild := false
        riskLevel := RiskMedium
        notes := ["VARCHAR extension within same length-byte boundary — in-place, metadata-only",
                  "Crossing the 255→256 byte boundary requires ALGORITHM=COPY (length byte changes from 1 to 2)"] }) :=
  ⟨predict_modify_varchar_boundary.1
      { columnName := "email", columnType := "varchar(256)" }
      { engine := "InnoDB"
        columns := [{ name := "email", columnType := "varchar(255)" }] }
      { name := "email", columnType := "varchar(255)" } 255 256
      (by decide) (by decide) (by decide) (by decide)
      (by decide) (by decide) (by decide) (by decide) (Or.inl rfl),
    predict_modify_varchar_boundary.2
      { columnName := "name", columnType := "varchar(200)" }
      { engine := "InnoDB"
        columns := [{ name := "name", columnType := "varchar(100)" }] }
      { name := "name", columnType := "varchar(100)" } 100 200
      (by decide) (by decide) (by decide) (by decide)
      (by decide) (by decide) (Or.inl ⟨by decide, by decide⟩)
      (by decide) (Or.inl rfl)⟩

end DLA
